import Mathlib

/-!
Verification of the schema-validation and error-reporting layer of the
`abossenbroek-claude-plugins` repository.

The repository's validators are Python scripts built on Pydantic v2 models.
This file gives a shallow embedding:

* `PyVal` models the values produced by `yaml.safe_load` / `json.load`
  (mappings are association lists with string keys, which covers every
  document the validators are specified over);
* each Pydantic model class is embedded as a function `PyVal → List VErr`
  that returns the list of validation errors exactly as Pydantic v2
  collects them (one error per violated constraint, located by a
  dot/bracket path, never stopping at the first failure);
* the hook / CLI scripts' pure control flow (YAML-block extraction,
  agent-type detection, error formatting, decision records, exit codes)
  is embedded function by function, keeping the source names.

External collaborators (the YAML parser itself, file I/O, stdin) are not
modelled; functions that consume a parsed document take the `PyVal`
directly, and the one function that calls the parser internally
(`extract_yaml_from_response` of the red-agent hook) takes the parser as
an explicit argument.
-/

/-- A parsed YAML/JSON value as handled by the Python validators.
Mappings are association lists with string keys (every schema in the
repository uses string keys); `int` and `float` are kept separate because
Python distinguishes them (`isinstance` checks in the field validators).
A `float` is an exact decimal `man / 10 ^ exp` — exactly the values YAML
and JSON decimal literals denote (the documents validated here stay far
inside the range where binary floats are exact on these decimals). -/
inductive PyVal where
  | none_ : PyVal
  | bool : Bool → PyVal
  | int : Int → PyVal
  | float : Int → Nat → PyVal
  | str : String → PyVal
  | list : List PyVal → PyVal
  | dict : List (String × PyVal) → PyVal

/-- One element of a Pydantic error location path: a field name or a list
index. -/
inductive Loc where
  | fld : String → Loc
  | idx : Nat → Loc
deriving DecidableEq, Repr

/-- A single Pydantic v2 validation error: location path, error type tag
(the `type` entry of `ValidationError.errors()`), and human message. -/
structure VErr where
  loc : List Loc
  etype : String
  msg : String
deriving DecidableEq, Repr

/-- Python `dict.get(k)`: first binding wins (real dicts have unique keys). -/
def lookupKey (kvs : List (String × PyVal)) (k : String) : Option PyVal :=
  match kvs.find? (fun p => p.1 == k) with
  | some p => some p.2
  | none => none

/-- Python `k in d` for a dict `d`. -/
def hasKey (kvs : List (String × PyVal)) (k : String) : Bool :=
  (lookupKey kvs k).isSome

/-- Python truthiness of a parsed value (`bool(v)`). -/
def pyTruthy : PyVal → Bool
  | .none_ => false
  | .bool b => b
  | .int n => n != 0
  | .float m _ => m != 0
  | .str s => s != ""
  | .list xs => !xs.isEmpty
  | .dict kvs => !kvs.isEmpty

/-- Python type name of a parsed value (`type(v).__name__`), as used in
the hook message `Expected YAML dict, got ...`. -/
def pyTypeName : PyVal → String
  | .none_ => "NoneType"
  | .bool _ => "bool"
  | .int _ => "int"
  | .float _ _ => "float"
  | .str _ => "str"
  | .list _ => "list"
  | .dict _ => "dict"

/-- Render one location element the way the scripts do (`str(x)` on each
`loc` entry). -/
def locElemStr : Loc → String
  | .fld s => s
  | .idx n => toString n

/-- Dotted location path, `".".join(str(x) for x in error["loc"])`. -/
def locDotted (l : List Loc) : String :=
  String.intercalate "." (l.map locElemStr)

/-- Prefix every error location with one step (used when a nested model's
errors are reported from the parent). -/
def atLoc (l : Loc) (errs : List VErr) : List VErr :=
  errs.map (fun e => { e with loc := l :: e.loc })

/-- Pydantic `missing` error (`Field required`). -/
def missingErr (name : String) : VErr :=
  ⟨[.fld name], "missing", "Field required"⟩

/-- A required model field: absent produces the `missing` error, present
values are validated by `chk` with the field name prefixed to locations. -/
def reqField (kvs : List (String × PyVal)) (name : String)
    (chk : PyVal → List VErr) : List VErr :=
  match lookupKey kvs name with
  | none => [missingErr name]
  | some v => atLoc (.fld name) (chk v)

/-- A model field with a default: absent produces no error, present
values are validated by `chk`. -/
def optField (kvs : List (String × PyVal)) (name : String)
    (chk : PyVal → List VErr) : List VErr :=
  match lookupKey kvs name with
  | none => []
  | some v => atLoc (.fld name) (chk v)

/-- Wrap a value check so that `None` is accepted (Pydantic `T | None`). -/
def nullable (chk : PyVal → List VErr) : PyVal → List VErr
  | .none_ => []
  | v => chk v

/-- Pydantic string field (v2 does not coerce numbers to `str`). -/
def strChk : PyVal → List VErr
  | .str _ => []
  | _ => [⟨[], "string_type", "Input should be a valid string"⟩]

/-- Spell out `character`/`characters` for the `min_length` message. -/
def charNoun (n : Nat) : String :=
  if n == 1 then "character" else "characters"

/-- Pydantic string field with `min_length` (`Field(min_length=n)`). -/
def strMinChk (n : Nat) : PyVal → List VErr
  | .str s =>
      if s.length < n then
        [⟨[], "string_too_short",
          "String should have at least " ++ toString n ++ " " ++ charNoun n⟩]
      else []
  | _ => [⟨[], "string_type", "Input should be a valid string"⟩]

/-- Pydantic string field with `max_length`. -/
def strMaxChk (n : Nat) : PyVal → List VErr
  | .str s =>
      if s.length > n then
        [⟨[], "string_too_long",
          "String should have at most " ++ toString n ++ " " ++ charNoun n⟩]
      else []
  | _ => [⟨[], "string_type", "Input should be a valid string"⟩]

/-- Parse the decimal strings Pydantic's lax `int` accepts (optional sign,
digits only). -/
def parseIntStr? (s : String) : Option Int :=
  let core := fun (cs : List Char) =>
    if cs ≠ [] ∧ cs.all (fun c => '0' ≤ c ∧ c ≤ '9') then
      some (cs.foldl (fun a c => a * 10 + ((c.toNat - 48 : Nat) : Int)) (0 : Int))
    else none
  match s.data with
  | '-' :: rest => (core rest).map (fun n => -n)
  | '+' :: rest => core rest
  | cs => core cs

/-- Pydantic lax `int` coercion: `int` itself, integral `float`, or a
decimal string; `bool` is rejected by v2. -/
def intLax : PyVal → Option Int
  | .int n => some n
  | .float m e => if m % ((10 : Int) ^ e) == 0 then some (m / (10 : Int) ^ e) else none
  | .str s => parseIntStr? s
  | _ => none

/-- Parse the plain decimal strings Pydantic's lax `float` accepts
(optional sign, digits, optional fractional part; exponents are not used
by any document in this development), as mantissa/decimal-exponent. -/
def parseFloatStr? (s : String) : Option (Int × Nat) :=
  let digits := fun (cs : List Char) => cs.all (fun c => '0' ≤ c ∧ c ≤ '9')
  let natOf := fun (cs : List Char) =>
    cs.foldl (fun a c => a * 10 + (c.toNat - 48)) (0 : Nat)
  let core := fun (cs : List Char) =>
    match cs.splitOn '.' with
    | [whole] =>
        if whole ≠ [] ∧ digits whole then some ((natOf whole : Int), (0 : Nat))
        else none
    | [whole, frac] =>
        if (whole ≠ [] ∨ frac ≠ []) ∧ digits whole ∧ digits frac then
          some ((natOf (whole ++ frac) : Int), frac.length)
        else none
    | _ => none
  match s.data with
  | '-' :: rest => (core rest).map (fun p => (-p.1, p.2))
  | '+' :: rest => core rest
  | cs => core cs

/-- Pydantic lax `float` coercion: `float`, `int`, or a numeric string;
`bool` is rejected by v2. -/
def floatLax : PyVal → Option (Int × Nat)
  | .float m e => some (m, e)
  | .int n => some (n, 0)
  | .str s => parseFloatStr? s
  | _ => none

/-- Pydantic `int` field with optional `ge`/`le` bounds. -/
def intChk (ge le : Option Int) : PyVal → List VErr := fun v =>
  match intLax v with
  | none => [⟨[], "int_type", "Input should be a valid integer"⟩]
  | some n =>
      (match ge with
       | some lo =>
           if n < lo then
             [⟨[], "greater_than_equal",
               "Input should be greater than or equal to " ++ toString lo⟩]
           else []
       | none => []) ++
      (match le with
       | some hi =>
           if n > hi then
             [⟨[], "less_than_equal",
               "Input should be less than or equal to " ++ toString hi⟩]
           else []
       | none => [])

/-- Pydantic `float` field with optional `ge`/`le` bounds (every bound
declared by the repository&apos;s models is an integer, so bounds are
carried as `Int`; `man / 10^exp ≤ n` iff `man ≤ n * 10^exp`). -/
def floatChk (ge le : Option Int) : PyVal → List VErr := fun v =>
  match floatLax v with
  | none => [⟨[], "float_type", "Input should be a valid number"⟩]
  | some q =>
      (match ge with
       | some lo =>
           if q.1 < lo * (10 : Int) ^ q.2 then
             [⟨[], "greater_than_equal",
               "Input should be greater than or equal to " ++ toString lo⟩]
           else []
       | none => []) ++
      (match le with
       | some hi =>
           if q.1 > hi * (10 : Int) ^ q.2 then
             [⟨[], "less_than_equal",
               "Input should be less than or equal to " ++ toString hi⟩]
           else []
       | none => [])

/-- Pydantic lax `bool` coercion (bool, 0/1 ints and floats, and the
usual truthy/falsy strings). -/
def boolLax : PyVal → Option Bool
  | .bool b => some b
  | .int 0 => some false
  | .int 1 => some true
  | .float m e =>
      if m == 0 then some false
      else if m == (10 : Int) ^ e then some true else none
  | .str s =>
      let t := s.toLower
      if t ∈ ["true", "t", "yes", "y", "on", "1"] then some true
      else if t ∈ ["false", "f", "no", "n", "off", "0"] then some false
      else none
  | _ => none

/-- Pydantic `bool` field. -/
def boolChk : PyVal → List VErr := fun v =>
  match boolLax v with
  | none => [⟨[], "bool_type", "Input should be a valid boolean"⟩]
  | some _ => []

/-- Pydantic list field: each element validated by `elemChk` with its
index prefixed. -/
def listChk (elemChk : PyVal → List VErr) : PyVal → List VErr
  | .list xs =>
      (List.range xs.length).zip xs |>.foldr
        (fun p acc => atLoc (.idx p.1) (elemChk p.2) ++ acc) []
  | _ => [⟨[], "list_type", "Input should be a valid list"⟩]

/-- Pydantic list field with `min_length` / `max_length` element counts.
Count errors are reported on the list itself before the element errors. -/
def listLenChk (lo hi : Option Nat) (elemChk : PyVal → List VErr) :
    PyVal → List VErr
  | .list xs =>
      (match lo with
       | some n =>
           if xs.length < n then
             [⟨[], "too_short",
               "List should have at least " ++ toString n ++
                 " item" ++ (if n == 1 then "" else "s") ++
                 " after validation, not " ++ toString xs.length⟩]
           else []
       | none => []) ++
      (match hi with
       | some n =>
           if xs.length > n then
             [⟨[], "too_long",
               "List should have at most " ++ toString n ++
                 " item" ++ (if n == 1 then "" else "s") ++
                 " after validation, not " ++ toString xs.length⟩]
           else []
       | none => []) ++
      ((List.range xs.length).zip xs |>.foldr
        (fun p acc => atLoc (.idx p.1) (elemChk p.2) ++ acc) [])
  | _ => [⟨[], "list_type", "Input should be a valid list"⟩]

/-- Pydantic `dict[str, Any]` field: any mapping is accepted. -/
def dictAnyChk : PyVal → List VErr
  | .dict _ => []
  | _ => [⟨[], "dict_type", "Input should be a valid dictionary"⟩]

/-- Pydantic `dict[str, T]` field: values validated under their key. -/
def dictOfChk (valChk : PyVal → List VErr) : PyVal → List VErr
  | .dict kvs => kvs.foldr (fun p acc => atLoc (.fld p.1) (valChk p.2) ++ acc) []
  | _ => [⟨[], "dict_type", "Input should be a valid dictionary"⟩]

/-- Join enum/literal choices the way Pydantic does:
`'A', 'B' or 'C'`. -/
def choicesStr : List String → String
  | [] => ""
  | [a] => "\x27" ++ a ++ "\x27"
  | [a, b] => "\x27" ++ a ++ "\x27 or \x27" ++ b ++ "\x27"
  | a :: rest => "\x27" ++ a ++ "\x27, " ++ choicesStr rest

/-- A `str`-valued `Enum` field: the string values of the enumeration are
accepted, anything else is an `enum` error naming the legal values. -/
def enumChk (vals : List String) : PyVal → List VErr := fun v =>
  match v with
  | .str s => if s ∈ vals then [] else
      [⟨[], "enum", "Input should be " ++ choicesStr vals⟩]
  | _ => [⟨[], "enum", "Input should be " ++ choicesStr vals⟩]

/-- A `Literal[...]` field over string values. -/
def literalChk (vals : List String) : PyVal → List VErr := fun v =>
  match v with
  | .str s => if s ∈ vals then [] else
      [⟨[], "literal_error", "Input should be " ++ choicesStr vals⟩]
  | _ => [⟨[], "literal_error", "Input should be " ++ choicesStr vals⟩]

/-- The `model_type` error a nested Pydantic model produces on non-dict
input. -/
def modelTypeErr (name : String) : List VErr :=
  [⟨[], "model_type",
    "Input should be a valid dictionary or instance of " ++ name⟩]

/-- `extra="forbid"`: one `extra_forbidden` error per unknown key, in
input order, after the declared fields&apos; errors. -/
def extraForbidden (fields : List String) (kvs : List (String × PyVal)) :
    List VErr :=
  (kvs.filter (fun p => !fields.contains p.1)).map
    (fun p => ⟨[.fld p.1], "extra_forbidden", "Extra inputs are not permitted"⟩)

/-! ## Shared validators (`src/red_agent/models/validators.py`) -/

/-- ASCII uppercase letter, the `[A-Z]` class. -/
def isUpperAZ (c : Char) : Bool := 'A' ≤ c && c ≤ 'Z'

/-- ASCII digit, the `\d` class (the patterns are ASCII-only). -/
def isDigit09 (c : Char) : Bool := '0' ≤ c && c ≤ '9'

/-- Python `$` without `re.MULTILINE`: end of string, or just before a
single trailing newline. -/
def dollarEnd (cs : List Char) : Bool := cs = [] || cs = ['\n']

/-- Tail of the finding-id pattern: `-\d{3}$`. -/
def hyphenDigits3 : List Char → Bool
  | h :: d1 :: d2 :: d3 :: rest =>
      h = '-' && isDigit09 d1 && isDigit09 d2 && isDigit09 d3 && dollarEnd rest
  | _ => false

/-- `re.match(r"^[A-Z]{2,3}-\d{3}$", s)` is not `None`: two or three
uppercase letters, a hyphen, exactly three digits (the greedy `{2,3}`
with backtracking is equivalent to this two-way case split). -/
def findingIdMatch (s : String) : Bool :=
  match s.data with
  | a :: b :: rest =>
      isUpperAZ a && isUpperAZ b &&
        (hyphenDigits3 rest ||
          (match rest with
           | c :: rest2 => isUpperAZ c && hyphenDigits3 rest2
           | [] => false))
  | _ => false

/-- `validate_finding_id` from `validators.py`: returns the id, or raises
`ValueError` with a message naming the expected format. -/
def validate_finding_id (v : String) : Except String String :=
  if findingIdMatch v then Except.ok v
  else Except.error
    ("Finding ID \x27" ++ v ++ "\x27 must match XX-NNN or XXX-NNN format (e.g., RF-001)")

/-- Tail of the percentage pattern: `%$`. -/
def pctTail : List Char → Bool
  | c :: rest => c = '%' && dollarEnd rest
  | _ => false

/-- `re.match(r"^\d{1,3}%$", s)` is not `None` (used by the
percentage-string confidence validators in `findings.py`/`reports.py`). -/
def percentMatch (s : String) : Bool :=
  match s.data with
  | d1 :: r1 =>
      isDigit09 d1 && (pctTail r1 ||
        (match r1 with
         | d2 :: r2 =>
             isDigit09 d2 && (pctTail r2 ||
               (match r2 with
                | d3 :: r3 => isDigit09 d3 && pctTail r3
                | [] => false))
         | [] => false))
  | _ => false

/-- Normalise a decimal mantissa/exponent pair by stripping trailing
zeros of the mantissa against the exponent. -/
def stripZeros : Int → Nat → Int × Nat
  | m, 0 => (m, 0)
  | m, e + 1 => if m % 10 == 0 then stripZeros (m / 10) e else (m, e + 1)

/-- Python `repr`/`str` of a float for the decimal values that occur in
validated documents (exact short decimals render as Python shows them,
e.g. `2.0`, `0.85`). -/
def pyFloatRepr (m : Int) (e : Nat) : String :=
  let p := stripZeros m e
  let sign := if p.1 < 0 then "-" else ""
  let n := toString p.1.natAbs
  if p.2 == 0 then sign ++ n ++ ".0"
  else
    let s := String.mk (List.replicate (p.2 + 1 - n.length) '0') ++ n
    sign ++ s.dropRight p.2 ++ "." ++ s.takeRight p.2

/-- Python `repr` of a set of strings, in the iteration order of the
source literal (CPython set order is unspecified; no theorem depends on
this rendering). -/
def pySetRepr (xs : List String) : String :=
  "\x7b" ++ String.intercalate ", " (xs.map (fun s => "\x27" ++ s ++ "\x27")) ++ "\x7d"

/-- A custom `field_validator` raising `ValueError(m)` surfaces as a
Pydantic `value_error` with message `Value error, m`. -/
def valueErr (m : String) : VErr := ⟨[], "value_error", "Value error, " ++ m⟩

/-- Python `s.startswith(pre)`. -/
def pyStartsWith (s pre : String) : Bool := pre.data.isPrefixOf s.data

/-- Python `s.endswith(suf)`. -/
def pyEndsWith (s suf : String) : Bool := suf.data.isSuffixOf s.data

/-- Split a character list at every occurrence of `c` (the semantics of
Python `str.split(c)`: n separators yield n+1 pieces). -/
def splitOnChar (c : Char) (l : List Char) : List (List Char) :=
  l.foldr
    (fun x acc =>
      if x = c then [] :: acc
      else (x :: acc.headD []) :: acc.tail)
    [[]]

/-- Python `s.split("\n")`. -/
def splitLinesStr (s : String) : List String :=
  (splitOnChar '\n' s.data).map String.mk

/-! ## Sub-agent output models (`src/red-agent/models/outputs.py`)

These are the strict Pydantic models for attacker / grounding / context
outputs.  (The CLI validator `src/src/red_agent/scripts/validate_agent_output.py`
imports the same class names from `red_agent.models`; that package&apos;s
re-export module is not under `src/`, and `src/red-agent/models/outputs.py`
is the definition present in the repository.)  Each class `C` is embedded
as `C : PyVal → List VErr`, the error list of `C.model_validate`. -/

/-- `ATTACKER_SEVERITY_LEVELS` from `outputs.py`. -/
def ATTACKER_SEVERITY_LEVELS : List String :=
  ["CRITICAL", "HIGH", "MEDIUM", "LOW", "INFO"]

/-- `AttackerFinding.validate_id_format`: value check for the `id` field
(string type, then the finding-id pattern). -/
def validate_id_format : PyVal → List VErr
  | .str s =>
      if findingIdMatch s then []
      else [valueErr ("Finding ID \x27" ++ s ++
        "\x27 must match XX-NNN or XXX-NNN format (e.g., RF-001)")]
  | _ => [⟨[], "string_type", "Input should be a valid string"⟩]

/-- `AttackerFinding.validate_severity`: value check for `severity`. -/
def validate_severity : PyVal → List VErr
  | .str s =>
      if s ∈ ATTACKER_SEVERITY_LEVELS then []
      else [valueErr ("Severity \x27" ++ s ++ "\x27 must be one of " ++
        pySetRepr ATTACKER_SEVERITY_LEVELS)]
  | _ => [⟨[], "string_type", "Input should be a valid string"⟩]

/-- `AttackerFinding.validate_confidence`: the field validator that runs
after the `float | str` union has accepted the value — numeric values
must lie in `[0.0, 1.0]`, strings must end in `%`. -/
def validate_confidence : PyVal → List VErr
  | .float m e =>
      if 0 ≤ m ∧ m ≤ (10 : Int) ^ e then []
      else [valueErr ("Confidence " ++ pyFloatRepr m e ++
        " must be between 0.0 and 1.0")]
  | .int n =>
      if 0 ≤ n ∧ n ≤ 1 then []
      else [valueErr ("Confidence " ++ pyFloatRepr n 0 ++
        " must be between 0.0 and 1.0")]
  | .str s =>
      if pyEndsWith s "%" then []
      else [valueErr ("String confidence \x27" ++ s ++
        "\x27 should be numeric or end with %")]
  | _ => []

/-- The `confidence : float | str` field: smart-union type validation
(ints pass through the lax `float` branch), then `validate_confidence`. -/
def confidenceFieldChk : PyVal → List VErr := fun v =>
  match v with
  | .float _ _ | .int _ | .str _ => validate_confidence v
  | _ =>
      [⟨[.fld "float"], "float_type", "Input should be a valid number"⟩,
       ⟨[.fld "str"], "string_type", "Input should be a valid string"⟩]

/-- `FindingTarget` (all fields optional). -/
def FindingTarget : PyVal → List VErr
  | .dict kvs =>
      optField kvs "claim_id" (nullable strChk) ++
      optField kvs "claim_text" (nullable strChk) ++
      optField kvs "message_num" (nullable (intChk none none))
  | _ => modelTypeErr "FindingTarget"

/-- `AttackApplied` (`style` and `probe` required). -/
def AttackApplied : PyVal → List VErr
  | .dict kvs =>
      reqField kvs "style" strChk ++
      reqField kvs "probe" strChk
  | _ => modelTypeErr "AttackApplied"

/-- `FindingEvidence` (`type` required, the rest optional). -/
def FindingEvidence : PyVal → List VErr
  | .dict kvs =>
      reqField kvs "type" strChk ++
      optField kvs "description" (nullable strChk) ++
      optField kvs "quote" (nullable strChk) ++
      optField kvs "assumption" (nullable strChk) ++
      optField kvs "why_problematic" (nullable strChk)
  | _ => modelTypeErr "FindingEvidence"

/-- `FindingImpact` (all fields optional). -/
def FindingImpact : PyVal → List VErr
  | .dict kvs =>
      optField kvs "if_exploited" (nullable strChk) ++
      optField kvs "if_assumption_fails" (nullable strChk) ++
      optField kvs "affected_claims" (listChk strChk) ++
      optField kvs "likelihood" (nullable strChk)
  | _ => modelTypeErr "FindingImpact"

/-- The required-field names of `AttackerFinding`, in declaration order
(every field of the model is required). -/
def attackerFindingRequired : List String :=
  ["id", "severity", "title", "confidence",
   "category", "target", "evidence", "attack_applied", "impact",
   "recommendation"]

/-- `AttackerFinding`: the strict finding model — all ten fields
required, with the id/severity/confidence field validators and
`recommendation: str = Field(min_length=10)`. -/
def AttackerFinding : PyVal → List VErr
  | .dict kvs =>
      reqField kvs "id" validate_id_format ++
      reqField kvs "severity" validate_severity ++
      reqField kvs "title" strChk ++
      reqField kvs "confidence" confidenceFieldChk ++
      reqField kvs "category" strChk ++
      reqField kvs "target" FindingTarget ++
      reqField kvs "evidence" FindingEvidence ++
      reqField kvs "attack_applied" AttackApplied ++
      reqField kvs "impact" FindingImpact ++
      reqField kvs "recommendation" (strMinChk 10)
  | _ => modelTypeErr "AttackerFinding"

/-- `DetectedPattern` from `outputs.py`. -/
def DetectedPattern : PyVal → List VErr
  | .dict kvs =>
      reqField kvs "pattern" strChk ++
      optField kvs "instances" (intChk (some 1) none) ++
      reqField kvs "description" strChk ++
      optField kvs "systemic_recommendation" (nullable strChk)
  | _ => modelTypeErr "DetectedPattern"

/-- `SeverityCounts` (five int counters, all defaulting to 0). -/
def SeverityCounts : PyVal → List VErr
  | .dict kvs =>
      optField kvs "critical" (intChk none none) ++
      optField kvs "high" (intChk none none) ++
      optField kvs "medium" (intChk none none) ++
      optField kvs "low" (intChk none none) ++
      optField kvs "info" (intChk none none)
  | _ => modelTypeErr "SeverityCounts"

/-- `AttackSummary`. -/
def AttackSummary : PyVal → List VErr
  | .dict kvs =>
      optField kvs "total_findings" (intChk none none) ++
      optField kvs "by_severity" SeverityCounts ++
      optField kvs "highest_risk_claim" (nullable strChk) ++
      optField kvs "primary_weakness" (nullable strChk)
  | _ => modelTypeErr "AttackSummary"

/-- `AttackResults`: `attack_type` and `summary` are required; the
`validate_categories` field validator never rejects (it tolerates unknown
categories), so `categories_probed` is a plain string list. -/
def AttackResults : PyVal → List VErr
  | .dict kvs =>
      reqField kvs "attack_type" strChk ++
      optField kvs "findings" (listChk AttackerFinding) ++
      optField kvs "categories_probed" (listChk strChk) ++
      optField kvs "patterns_detected" (listChk DetectedPattern) ++
      reqField kvs "summary" AttackSummary
  | _ => modelTypeErr "AttackResults"

/-- `AttackerOutput`: the root attacker schema. -/
def AttackerOutput : PyVal → List VErr
  | .dict kvs => reqField kvs "attack_results" AttackResults
  | _ => modelTypeErr "AttackerOutput"

/-- A `bool | str` union field (smart union: exact `bool`/`str` accepted,
then lax bool coercion; both-branch errors otherwise). -/
def boolOrStrChk : PyVal → List VErr := fun v =>
  match v with
  | .bool _ | .str _ => []
  | _ =>
      match boolLax v with
      | some _ => []
      | none =>
          [⟨[.fld "bool"], "bool_type", "Input should be a valid boolean"⟩,
           ⟨[.fld "str"], "string_type", "Input should be a valid string"⟩]

/-- Run `after` (a field validator) only when the base type/constraint
check passed, as Pydantic does. -/
def thenChk (base after : PyVal → List VErr) : PyVal → List VErr := fun v =>
  match base v with
  | [] => after v
  | es => es

/-- `EvidenceReview` (`outputs.py`). -/
def EvidenceReview : PyVal → List VErr
  | .dict kvs =>
      reqField kvs "evidence_exists" boolChk ++
      optField kvs "evidence_accurate" boolOrStrChk ++
      optField kvs "evidence_sufficient" boolOrStrChk
  | _ => modelTypeErr "EvidenceReview"

/-- `QuoteVerification` (`outputs.py`). -/
def QuoteVerification : PyVal → List VErr
  | .dict kvs =>
      optField kvs "original_quote" (nullable strChk) ++
      optField kvs "actual_source" (nullable strChk) ++
      optField kvs "match_quality" strChk
  | _ => modelTypeErr "QuoteVerification"

/-- `InferenceValidity` (`outputs.py`). -/
def InferenceValidity : PyVal → List VErr
  | .dict kvs =>
      optField kvs "valid" boolOrStrChk ++
      optField kvs "reasoning" (nullable strChk)
  | _ => modelTypeErr "InferenceValidity"

/-- `GroundingIssue` (`outputs.py`). -/
def GroundingIssue : PyVal → List VErr
  | .dict kvs =>
      reqField kvs "issue" strChk ++
      optField kvs "severity" strChk
  | _ => modelTypeErr "GroundingIssue"

/-- `GroundingAssessment` (`outputs.py`). -/
def GroundingAssessment : PyVal → List VErr
  | .dict kvs =>
      reqField kvs "finding_id" strChk ++
      reqField kvs "evidence_strength" (floatChk (some 0) (some 1)) ++
      reqField kvs "original_confidence" (floatChk (some 0) (some 1)) ++
      reqField kvs "evidence_review" EvidenceReview ++
      reqField kvs "quote_verification" QuoteVerification ++
      reqField kvs "inference_validity" InferenceValidity ++
      optField kvs "issues_found" (listChk GroundingIssue) ++
      optField kvs "adjusted_confidence" (nullable (floatChk (some 0) (some 1))) ++
      optField kvs "notes" (nullable strChk)
  | _ => modelTypeErr "GroundingAssessment"

/-- `GroundingResults` (`outputs.py`). -/
def GroundingResults : PyVal → List VErr
  | .dict kvs =>
      reqField kvs "agent" strChk ++
      optField kvs "assessments" (listChk GroundingAssessment)
  | _ => modelTypeErr "GroundingResults"

/-- `GroundingOutput`: the root grounding schema. -/
def GroundingOutput : PyVal → List VErr
  | .dict kvs => reqField kvs "grounding_results" GroundingResults
  | _ => modelTypeErr "GroundingOutput"

/-- `ClaimAnalysis` (`outputs.py`). -/
def ClaimAnalysis : PyVal → List VErr
  | .dict kvs =>
      reqField kvs "claim_id" strChk ++
      optField kvs "risk_level" (nullable strChk) ++
      optField kvs "content" (nullable strChk) ++
      optField kvs "original_text" (nullable strChk) ++
      optField kvs "verifiability" (nullable strChk) ++
      optField kvs "risk_factors" (listChk strChk) ++
      optField kvs "depends_on" (listChk strChk)
  | _ => modelTypeErr "ClaimAnalysis"

/-- `RiskSurface` (`outputs.py`). -/
def RiskSurface : PyVal → List VErr
  | .dict kvs =>
      optField kvs "areas" (listChk strChk) ++
      optField kvs "exposure_level" (nullable strChk)
  | _ => modelTypeErr "RiskSurface"

/-- `DependencyChain` (`outputs.py`). -/
def DependencyChain : PyVal → List VErr
  | .dict kvs =>
      reqField kvs "root" strChk ++
      optField kvs "depends" (listChk strChk) ++
      optField kvs "risk_if_root_fails" (nullable strChk)
  | _ => modelTypeErr "DependencyChain"

/-- `DependencyGraph` (`outputs.py`). -/
def DependencyGraph : PyVal → List VErr
  | .dict kvs =>
      optField kvs "roots" (listChk strChk) ++
      optField kvs "chains" (listChk DependencyChain)
  | _ => modelTypeErr "DependencyGraph"

/-- `ContextAnalysisResults` (`outputs.py`). -/
def ContextAnalysisResults : PyVal → List VErr
  | .dict kvs =>
      optField kvs "summary" (nullable dictAnyChk) ++
      optField kvs "claim_analysis" (listChk ClaimAnalysis) ++
      optField kvs "reasoning_patterns" (listChk strChk) ++
      optField kvs "risk_surface" (nullable RiskSurface) ++
      optField kvs "dependency_graph" (nullable DependencyGraph) ++
      optField kvs "key_observations" (listChk strChk)
  | _ => modelTypeErr "ContextAnalysisResults"

/-- `ContextAnalysisOutput`: the root context-analysis schema. -/
def ContextAnalysisOutput : PyVal → List VErr
  | .dict kvs => reqField kvs "context_analysis" ContextAnalysisResults
  | _ => modelTypeErr "ContextAnalysisOutput"

/-! ## Finding and report models
(`src/src/red_agent/models/findings.py`, `src/red-agent/models/reports.py`,
`src/red-agent/models/strategy.py`, with the enumerations from
`src/src/red_agent/models/enums.py`). -/

/-- `FindingSeverity` enumeration values. -/
def FindingSeverityVals : List String := ["CRITICAL", "HIGH", "MEDIUM", "LOW"]

/-- `Severity` enumeration values. -/
def SeverityVals : List String :=
  ["CRITICAL", "HIGH", "MEDIUM", "LOW", "INFO", "NONE"]

/-- `AnalysisMode` enumeration values. -/
def AnalysisModeVals : List String := ["quick", "standard", "deep"]

/-- `RiskCategoryName` enumeration values
(`src/src/red_agent/models/enums.py`, eleven categories). -/
def RiskCategoryNameVals : List String :=
  ["reasoning-flaws", "assumption-gaps", "context-manipulation",
   "authority-exploitation", "information-leakage", "hallucination-risks",
   "over-confidence", "scope-creep", "dependency-blindness",
   "temporal-inconsistency", "code-duplication"]

/-- The `validate_id_format` of `findings.py`, delegating to the shared
`validate_finding_id`. -/
def findingIdFieldChk : PyVal → List VErr
  | .str s =>
      match validate_finding_id s with
      | .ok _ => []
      | .error m => [valueErr m]
  | _ => [⟨[], "string_type", "Input should be a valid string"⟩]

/-- `validate_confidence_format` (`findings.py`/`reports.py`): confidence
strings must match `^\d{1,3}%$`. -/
def percentFieldChk : PyVal → List VErr
  | .str s =>
      if percentMatch s then []
      else [valueErr ("Confidence \x27" ++ s ++
        "\x27 must be a percentage (e.g., \x2785%\x27)")]
  | _ => [⟨[], "string_type", "Input should be a valid string"⟩]

/-- `Evidence` (`findings.py`). -/
def Evidence : PyVal → List VErr
  | .dict kvs =>
      reqField kvs "quote" strChk ++
      reqField kvs "source" strChk ++
      optField kvs "message_num" (nullable (intChk none none))
  | _ => modelTypeErr "Evidence"

/-- `GroundingNotes` (`findings.py`). -/
def GroundingNotes : PyVal → List VErr
  | .dict kvs =>
      reqField kvs "evidence_strength" (floatChk (some 0) (some 1)) ++
      optField kvs "notes" (nullable strChk)
  | _ => modelTypeErr "GroundingNotes"

/-- `Finding` (`findings.py`): percentage-string confidence, enumerated
severity, title of at least ten characters. -/
def Finding : PyVal → List VErr
  | .dict kvs =>
      reqField kvs "id" findingIdFieldChk ++
      reqField kvs "category" strChk ++
      reqField kvs "severity" (enumChk FindingSeverityVals) ++
      reqField kvs "title" (strMinChk 10) ++
      reqField kvs "confidence" percentFieldChk ++
      optField kvs "evidence" (nullable Evidence) ++
      optField kvs "issue" (nullable strChk) ++
      optField kvs "probing_question" (nullable strChk) ++
      optField kvs "recommendation" (nullable strChk) ++
      optField kvs "grounding_notes" (nullable GroundingNotes)
  | _ => modelTypeErr "Finding"

/-- `Pattern` (`findings.py`). -/
def Pattern : PyVal → List VErr
  | .dict kvs =>
      reqField kvs "name" strChk ++
      reqField kvs "description" strChk ++
      optField kvs "instances" (intChk (some 1) none)
  | _ => modelTypeErr "Pattern"

/-- `RiskCategory` (`findings.py`). -/
def RiskCategory : PyVal → List VErr
  | .dict kvs =>
      reqField kvs "category" (enumChk RiskCategoryNameVals) ++
      reqField kvs "severity" (enumChk SeverityVals) ++
      optField kvs "count" (intChk (some 0) none) ++
      optField kvs "confidence" (nullable percentFieldChk)
  | _ => modelTypeErr "RiskCategory"

/-- `RiskOverview` (`reports.py`). -/
def RiskOverview : PyVal → List VErr
  | .dict kvs =>
      reqField kvs "overall_risk_level" (enumChk SeverityVals) ++
      optField kvs "analysis_confidence" (nullable percentFieldChk) ++
      optField kvs "categories" (listChk RiskCategory)
  | _ => modelTypeErr "RiskOverview"

/-- `FindingsByLevel` (`reports.py`). -/
def FindingsByLevel : PyVal → List VErr
  | .dict kvs =>
      optField kvs "critical" (listChk Finding) ++
      optField kvs "high" (listChk Finding) ++
      optField kvs "medium" (listChk Finding) ++
      optField kvs "low" (listChk Finding)
  | _ => modelTypeErr "FindingsByLevel"

/-- `Recommendations` (`reports.py`). -/
def Recommendations : PyVal → List VErr
  | .dict kvs =>
      optField kvs "immediate" (listChk strChk) ++
      optField kvs "short_term" (listChk strChk) ++
      optField kvs "long_term" (listChk strChk)
  | _ => modelTypeErr "Recommendations"

/-- `Limitations` (`reports.py`). -/
def Limitations : PyVal → List VErr
  | .dict kvs =>
      optField kvs "scope" (nullable strChk) ++
      optField kvs "coverage" (nullable strChk) ++
      optField kvs "confidence_note" (nullable strChk) ++
      optField kvs "temporal_note" (nullable strChk)
  | _ => modelTypeErr "Limitations"

/-- `Methodology` (`reports.py`). -/
def Methodology : PyVal → List VErr
  | .dict kvs =>
      optField kvs "mode" (enumChk AnalysisModeVals) ++
      optField kvs "grounding_enabled" boolChk ++
      optField kvs "categories_analyzed" (listChk strChk)
  | _ => modelTypeErr "Methodology"

/-- `RedTeamReport`: the root report schema (executive summary of at
least fifty characters). -/
def RedTeamReport : PyVal → List VErr
  | .dict kvs =>
      reqField kvs "executive_summary" (strMinChk 50) ++
      reqField kvs "risk_overview" RiskOverview ++
      reqField kvs "findings" FindingsByLevel ++
      optField kvs "patterns_detected" (listChk Pattern) ++
      optField kvs "recommendations" (nullable Recommendations) ++
      optField kvs "limitations" (nullable Limitations) ++
      optField kvs "methodology" (nullable Methodology)
  | _ => modelTypeErr "RedTeamReport"

/-- `StrategyTarget` (`strategy.py`). -/
def StrategyTarget : PyVal → List VErr
  | .dict kvs =>
      optField kvs "claim_id" (nullable strChk) ++
      optField kvs "area" (nullable strChk) ++
      reqField kvs "reason" strChk
  | _ => modelTypeErr "StrategyTarget"

/-- `SelectedVector` (`strategy.py`). -/
def SelectedVector : PyVal → List VErr
  | .dict kvs =>
      reqField kvs "category" strChk ++
      reqField kvs "priority" (intChk (some 1) none) ++
      reqField kvs "rationale" strChk ++
      optField kvs "attack_styles" (listChk strChk) ++
      optField kvs "targets" (listChk StrategyTarget)
  | _ => modelTypeErr "SelectedVector"

/-- `AttackerAssignment` (`strategy.py`). -/
def AttackerAssignment : PyVal → List VErr
  | .dict kvs =>
      optField kvs "categories" (listChk strChk) ++
      optField kvs "targets" (listChk StrategyTarget)
  | _ => modelTypeErr "AttackerAssignment"

/-- `GroundingPlan` (`strategy.py`). -/
def GroundingPlan : PyVal → List VErr
  | .dict kvs =>
      optField kvs "enabled" boolChk ++
      optField kvs "agents" (listChk strChk)
  | _ => modelTypeErr "GroundingPlan"

/-- `MetaAnalysisPlan` (`strategy.py`). -/
def MetaAnalysisPlan : PyVal → List VErr
  | .dict kvs =>
      optField kvs "enabled" boolChk ++
      optField kvs "focus" (nullable strChk)
  | _ => modelTypeErr "MetaAnalysisPlan"

/-- `AttackStrategyResults` (`strategy.py`). -/
def AttackStrategyResults : PyVal → List VErr
  | .dict kvs =>
      reqField kvs "mode" strChk ++
      reqField kvs "total_vectors" (intChk (some 0) none) ++
      optField kvs "selected_vectors" (listChk SelectedVector) ++
      optField kvs "attacker_assignments" (dictOfChk AttackerAssignment) ++
      optField kvs "grounding_plan" (nullable GroundingPlan) ++
      optField kvs "meta_analysis" (nullable MetaAnalysisPlan) ++
      optField kvs "notes" (listChk strChk)
  | _ => modelTypeErr "AttackStrategyResults"

/-- `AttackStrategyOutput`: the root strategy schema. -/
def AttackStrategyOutput : PyVal → List VErr
  | .dict kvs => reqField kvs "attack_strategy" AttackStrategyResults
  | _ => modelTypeErr "AttackStrategyOutput"

/-! ## PR analysis models (`src/src/red_agent/models/pr_analysis.py`)

All of these use `model_config = ConfigDict(extra="forbid")`: unknown
keys produce `extra_forbidden` errors (after the declared fields&apos;
errors, in input order). -/

/-- `PR_FINDING_SEVERITY_LEVELS` from `pr_analysis.py`. -/
def PR_FINDING_SEVERITY_LEVELS : List String :=
  ["CRITICAL", "HIGH", "MEDIUM", "LOW", "INFO"]

/-- `DiffSummary`. -/
def DiffSummary : PyVal → List VErr
  | .dict kvs =>
      reqField kvs "files_changed" (intChk (some 0) none) ++
      reqField kvs "high_risk_files" (intChk (some 0) none) ++
      reqField kvs "medium_risk_files" (intChk (some 0) none) ++
      reqField kvs "low_risk_files" (intChk (some 0) none) ++
      reqField kvs "total_insertions" (intChk (some 0) none) ++
      reqField kvs "total_deletions" (intChk (some 0) none) ++
      extraForbidden ["files_changed", "high_risk_files", "medium_risk_files",
        "low_risk_files", "total_insertions", "total_deletions"] kvs
  | _ => modelTypeErr "DiffSummary"

/-- `FileAnalysis`. -/
def FileAnalysis : PyVal → List VErr
  | .dict kvs =>
      reqField kvs "file_id" (strMinChk 1) ++
      reqField kvs "path" (strMinChk 1) ++
      reqField kvs "risk_level" (literalChk ["high", "medium", "low"]) ++
      reqField kvs "risk_score" (floatChk (some 0) (some 1)) ++
      reqField kvs "change_summary" (strMinChk 1) ++
      optField kvs "risk_factors" (listChk strChk) ++
      optField kvs "line_ranges" (listChk (listChk (intChk none none))) ++
      reqField kvs "change_type"
        (literalChk ["addition", "modification", "deletion", "refactor"]) ++
      reqField kvs "insertions" (intChk (some 0) none) ++
      reqField kvs "deletions" (intChk (some 0) none) ++
      extraForbidden ["file_id", "path", "risk_level", "risk_score",
        "change_summary", "risk_factors", "line_ranges", "change_type",
        "insertions", "deletions"] kvs
  | _ => modelTypeErr "FileAnalysis"

/-- `RiskCategoryExposure`. -/
def RiskCategoryExposure : PyVal → List VErr
  | .dict kvs =>
      reqField kvs "category" (strMinChk 1) ++
      reqField kvs "exposure" (literalChk ["high", "medium", "low", "none"]) ++
      optField kvs "affected_files" (listChk strChk) ++
      reqField kvs "notes" (strMinChk 1) ++
      extraForbidden ["category", "exposure", "affected_files", "notes"] kvs
  | _ => modelTypeErr "RiskCategoryExposure"

/-- `PatternDetected`. -/
def PatternDetected : PyVal → List VErr
  | .dict kvs =>
      reqField kvs "pattern" (strMinChk 1) ++
      reqField kvs "description" (strMinChk 1) ++
      reqField kvs "instances" (intChk (some 1) none) ++
      optField kvs "affected_files" (listChk strChk) ++
      reqField kvs "risk_implication" (strMinChk 1) ++
      extraForbidden ["pattern", "description", "instances", "affected_files",
        "risk_implication"] kvs
  | _ => modelTypeErr "PatternDetected"

/-- `FocusArea`. -/
def FocusArea : PyVal → List VErr
  | .dict kvs =>
      reqField kvs "area" (strMinChk 1) ++
      optField kvs "files" (listChk strChk) ++
      reqField kvs "rationale" (strMinChk 1) ++
      extraForbidden ["area", "files", "rationale"] kvs
  | _ => modelTypeErr "FocusArea"

/-- `DiffAnalysisResults`. -/
def DiffAnalysisResults : PyVal → List VErr
  | .dict kvs =>
      reqField kvs "summary" DiffSummary ++
      optField kvs "file_analysis" (listChk FileAnalysis) ++
      optField kvs "risk_surface" (listChk RiskCategoryExposure) ++
      optField kvs "patterns_detected" (listChk PatternDetected) ++
      optField kvs "high_risk_files" (listChk strChk) ++
      optField kvs "focus_areas" (listChk FocusArea) ++
      optField kvs "key_observations" (listChk strChk) ++
      extraForbidden ["summary", "file_analysis", "risk_surface",
        "patterns_detected", "high_risk_files", "focus_areas",
        "key_observations"] kvs
  | _ => modelTypeErr "DiffAnalysisResults"

/-- `DiffAnalysisOutput`: the root diff-analysis schema. -/
def DiffAnalysisOutput : PyVal → List VErr
  | .dict kvs =>
      reqField kvs "diff_analysis" DiffAnalysisResults ++
      extraForbidden ["diff_analysis"] kvs
  | _ => modelTypeErr "DiffAnalysisOutput"

/-- `CodeFindingTarget`. -/
def CodeFindingTarget : PyVal → List VErr
  | .dict kvs =>
      reqField kvs "file_path" (strMinChk 1) ++
      optField kvs "line_numbers" (listChk (intChk none none)) ++
      reqField kvs "diff_snippet" (strMinChk 1) ++
      optField kvs "function_name" (nullable strChk) ++
      extraForbidden ["file_path", "line_numbers", "diff_snippet",
        "function_name"] kvs
  | _ => modelTypeErr "CodeFindingTarget"

/-- `CodeFindingEvidence`. -/
def CodeFindingEvidence : PyVal → List VErr
  | .dict kvs =>
      reqField kvs "type" (strMinChk 1) ++
      optField kvs "description" (nullable strChk) ++
      optField kvs "code_quote" (nullable strChk) ++
      optField kvs "assumption" (nullable strChk) ++
      optField kvs "why_problematic" (nullable strChk) ++
      optField kvs "edge_case" (nullable strChk) ++
      extraForbidden ["type", "description", "code_quote", "assumption",
        "why_problematic", "edge_case"] kvs
  | _ => modelTypeErr "CodeFindingEvidence"

/-- `CodeAttackApplied`. -/
def CodeAttackApplied : PyVal → List VErr
  | .dict kvs =>
      reqField kvs "style" (strMinChk 1) ++
      reqField kvs "probe" (strMinChk 1) ++
      extraForbidden ["style", "probe"] kvs
  | _ => modelTypeErr "CodeAttackApplied"

/-- `CodeFindingImpact`. -/
def CodeFindingImpact : PyVal → List VErr
  | .dict kvs =>
      optField kvs "if_exploited" (nullable strChk) ++
      optField kvs "affected_functionality" (nullable strChk) ++
      optField kvs "if_assumption_fails" (nullable strChk) ++
      optField kvs "likelihood" (nullable strChk) ++
      optField kvs "if_triggered" (nullable strChk) ++
      optField kvs "severity_justification" (nullable strChk) ++
      extraForbidden ["if_exploited", "affected_functionality",
        "if_assumption_fails", "likelihood", "if_triggered",
        "severity_justification"] kvs
  | _ => modelTypeErr "CodeFindingImpact"

/-- `CodeAttackerFinding.validate_id_format`: ids with the LE, AG or EH
prefix pass; anything else falls back to the shared finding-id validation. -/
def codeAttackerIdChk : PyVal → List VErr
  | .str s =>
      if pyStartsWith s "LE-" || pyStartsWith s "AG-" || pyStartsWith s "EH-" then []
      else
        match validate_finding_id s with
        | .ok _ => []
        | .error m => [valueErr m]
  | _ => [⟨[], "string_type", "Input should be a valid string"⟩]

/-- `CodeAttackerFinding.validate_severity`. -/
def codeAttackerSeverityChk : PyVal → List VErr
  | .str s =>
      if s ∈ PR_FINDING_SEVERITY_LEVELS then []
      else [valueErr ("Severity \x27" ++ s ++ "\x27 must be one of " ++
        pySetRepr PR_FINDING_SEVERITY_LEVELS)]
  | _ => [⟨[], "string_type", "Input should be a valid string"⟩]

/-- `CodeAttackerFinding`. -/
def CodeAttackerFinding : PyVal → List VErr
  | .dict kvs =>
      reqField kvs "id" (thenChk (strMinChk 1) codeAttackerIdChk) ++
      reqField kvs "category" (strMinChk 1) ++
      reqField kvs "severity" (thenChk (strMinChk 1) codeAttackerSeverityChk) ++
      reqField kvs "title" (strMinChk 1) ++
      reqField kvs "target" CodeFindingTarget ++
      reqField kvs "evidence" CodeFindingEvidence ++
      reqField kvs "attack_applied" CodeAttackApplied ++
      reqField kvs "impact" CodeFindingImpact ++
      reqField kvs "recommendation" (strMinChk 10) ++
      reqField kvs "confidence" (floatChk (some 0) (some 1)) ++
      extraForbidden ["id", "category", "severity", "title", "target",
        "evidence", "attack_applied", "impact", "recommendation",
        "confidence"] kvs
  | _ => modelTypeErr "CodeAttackerFinding"

/-- `CodePatternDetected`. -/
def CodePatternDetected : PyVal → List VErr
  | .dict kvs =>
      reqField kvs "pattern" (strMinChk 1) ++
      reqField kvs "instances" (intChk (some 1) none) ++
      optField kvs "files_affected" (listChk strChk) ++
      reqField kvs "description" (strMinChk 1) ++
      optField kvs "systemic_recommendation" (nullable strChk) ++
      extraForbidden ["pattern", "instances", "files_affected", "description",
        "systemic_recommendation"] kvs
  | _ => modelTypeErr "CodePatternDetected"

/-- `CodeAttackSummary`. -/
def CodeAttackSummary : PyVal → List VErr
  | .dict kvs =>
      reqField kvs "total_findings" (intChk (some 0) none) ++
      optField kvs "by_severity" (dictOfChk (intChk none none)) ++
      optField kvs "highest_risk_file" (nullable strChk) ++
      optField kvs "primary_weakness" (nullable strChk) ++
      extraForbidden ["total_findings", "by_severity", "highest_risk_file",
        "primary_weakness"] kvs
  | _ => modelTypeErr "CodeAttackSummary"

/-- `CodeAttackResults`. -/
def CodeAttackResults : PyVal → List VErr
  | .dict kvs =>
      reqField kvs "attack_type" (strMinChk 1) ++
      optField kvs "categories_probed" (listChk strChk) ++
      optField kvs "findings" (listChk CodeAttackerFinding) ++
      optField kvs "patterns_detected" (listChk CodePatternDetected) ++
      reqField kvs "summary" CodeAttackSummary ++
      extraForbidden ["attack_type", "categories_probed", "findings",
        "patterns_detected", "summary"] kvs
  | _ => modelTypeErr "CodeAttackResults"

/-- `CodeAttackerOutput`: the root code-attacker schema. -/
def CodeAttackerOutput : PyVal → List VErr
  | .dict kvs =>
      reqField kvs "attack_results" CodeAttackResults ++
      extraForbidden ["attack_results"] kvs
  | _ => modelTypeErr "CodeAttackerOutput"

/-- `PRSummary`. -/
def PRSummary : PyVal → List VErr
  | .dict kvs =>
      optField kvs "title" (nullable strChk) ++
      optField kvs "description" (nullable strChk) ++
      reqField kvs "files_changed" (intChk (some 0) none) ++
      reqField kvs "additions" (intChk (some 0) none) ++
      reqField kvs "deletions" (intChk (some 0) none) ++
      reqField kvs "pr_size"
        (literalChk ["tiny", "small", "medium", "large", "massive"]) ++
      optField kvs "high_risk_files" (listChk strChk) ++
      extraForbidden ["title", "description", "files_changed", "additions",
        "deletions", "pr_size", "high_risk_files"] kvs
  | _ => modelTypeErr "PRSummary"

/-- `PRFinding`. -/
def PRFinding : PyVal → List VErr
  | .dict kvs =>
      reqField kvs "id" (thenChk (strMinChk 1) findingIdFieldChk) ++
      reqField kvs "severity"
        (literalChk ["CRITICAL", "HIGH", "MEDIUM", "LOW", "INFO"]) ++
      reqField kvs "title" (strMinChk 1) ++
      reqField kvs "description" (strMinChk 10) ++
      optField kvs "file_path" (nullable strChk) ++
      optField kvs "line_ranges" (listChk (listChk (intChk none none))) ++
      reqField kvs "recommendation" (strMinChk 10) ++
      reqField kvs "confidence" (floatChk (some 0) (some 1)) ++
      extraForbidden ["id", "severity", "title", "description", "file_path",
        "line_ranges", "recommendation", "confidence"] kvs
  | _ => modelTypeErr "PRFinding"

/-- `BreakingChange` (`pr_analysis.py`). -/
def BreakingChange : PyVal → List VErr
  | .dict kvs =>
      reqField kvs "type" (strMinChk 1) ++
      reqField kvs "description" (strMinChk 10) ++
      reqField kvs "file_path" (strMinChk 1) ++
      reqField kvs "impact" (strMinChk 10) ++
      optField kvs "mitigation" (nullable strChk) ++
      extraForbidden ["type", "description", "file_path", "impact",
        "mitigation"] kvs
  | _ => modelTypeErr "BreakingChange"

/-- `PRRedTeamReport`: the root PR-report schema. -/
def PRRedTeamReport : PyVal → List VErr
  | .dict kvs =>
      reqField kvs "executive_summary" (strMinChk 50) ++
      reqField kvs "pr_summary" PRSummary ++
      reqField kvs "risk_level"
        (literalChk ["CRITICAL", "HIGH", "MEDIUM", "LOW", "INFO"]) ++
      optField kvs "findings" (listChk PRFinding) ++
      optField kvs "findings_by_file" (dictOfChk (listChk PRFinding)) ++
      optField kvs "breaking_changes" (listChk BreakingChange) ++
      optField kvs "recommendations" (listChk strChk) ++
      optField kvs "test_coverage_notes" (nullable strChk) ++
      extraForbidden ["executive_summary", "pr_summary", "risk_level",
        "findings", "findings_by_file", "breaking_changes",
        "recommendations", "test_coverage_notes"] kvs
  | _ => modelTypeErr "PRRedTeamReport"

/-! ## CLI validator (`src/src/red_agent/scripts/validate_agent_output.py`)

The script&apos;s warning passes probe the raw parsed document with
`dict.get` / `in` / `len` / iteration; those Python operations raise on
receivers of the wrong type, so the embedded functions return `Option`
(`none` = uncaught Python exception). -/

mutual

/-- Python `repr` of a parsed value (plain strings only — escape
sequences inside strings do not occur in the validated documents). -/
def pyRepr : PyVal → String
  | .none_ => "None"
  | .bool b => if b then "True" else "False"
  | .int n => toString n
  | .float m e => pyFloatRepr m e
  | .str s => "\x27" ++ s ++ "\x27"
  | .list xs => "[" ++ String.intercalate ", " (pyReprList xs) ++ "]"
  | .dict kvs => "\x7b" ++ String.intercalate ", " (pyReprPairs kvs) ++ "\x7d"

/-- `repr` of the elements of a list value. -/
def pyReprList : List PyVal → List String
  | [] => []
  | x :: xs => pyRepr x :: pyReprList xs

/-- `repr` of the entries of a dict value. -/
def pyReprPairs : List (String × PyVal) → List String
  | [] => []
  | (k, v) :: rest => ("\x27" ++ k ++ "\x27: " ++ pyRepr v) :: pyReprPairs rest

end

/-- Python `str(v)`. -/
def pyStrOf : PyVal → String
  | .str s => s
  | v => pyRepr v

/-- Python `v.get(k, dflt)`: `AttributeError` (`none`) unless `v` is a
dict. -/
def pyGetOpt (v : PyVal) (k : String) (dflt : PyVal) : Option PyVal :=
  match v with
  | .dict kvs => some ((lookupKey kvs k).getD dflt)
  | _ => none

/-- Python `k in v` for a string `k` (`dict` keys, `str` substring,
`list` membership on string elements; `TypeError` otherwise). -/
def pyContains (k : String) : PyVal → Option Bool
  | .dict kvs => some (hasKey kvs k)
  | .str s => some ((List.range (s.data.length + 1)).any
      (fun i => k.data.isPrefixOf (s.data.drop i)))
  | .list xs => some (xs.any (fun x => match x with | .str t => t == k | _ => false))
  | _ => none

/-- Python `len(v)` (`TypeError` on scalars). -/
def pyLen : PyVal → Option Nat
  | .str s => some s.length
  | .list xs => some xs.length
  | .dict kvs => some kvs.length
  | _ => none

/-- Python iteration `for x in v` (`list` elements, `str` characters,
`dict` keys; `TypeError` otherwise). -/
def pyIter : PyVal → Option (List PyVal)
  | .list xs => some xs
  | .str s => some (s.data.map (fun c => .str (String.mk [c])))
  | .dict kvs => some (kvs.map (fun p => .str p.1))
  | _ => none

/-- `ValidationResult` from the CLI script: collected error and warning
strings; `is_valid` iff no errors. -/
structure ValidationResult where
  errors : List String
  warnings : List String
deriving DecidableEq, Repr

/-- `ValidationResult.is_valid`. -/
def ValidationResult.is_valid (r : ValidationResult) : Bool := r.errors.isEmpty

/-- `ValidationResult.__str__`: `ERRORS (n):` / `WARNINGS (n):` sections
with two-space-indented dashed items, or `Validation passed`. -/
def ValidationResult.render (r : ValidationResult) : String :=
  let lines :=
    (if !r.errors.isEmpty then
      ("ERRORS (" ++ toString r.errors.length ++ "):") ::
        r.errors.map (fun e => "  - " ++ e)
     else []) ++
    (if !r.warnings.isEmpty then
      ("WARNINGS (" ++ toString r.warnings.length ++ "):") ::
        r.warnings.map (fun w => "  - " ++ w)
     else [])
  if lines.isEmpty then "Validation passed" else String.intercalate "\n" lines

/-- `_pydantic_errors_to_result`: one error string per Pydantic error,
`<dotted.loc>: <msg>`. -/
def _pydantic_errors_to_result (errs : List VErr) : ValidationResult :=
  ⟨errs.map (fun e => locDotted e.loc ++ ": " ++ e.msg), []⟩

/-- Run a Pydantic root model the way the `validate_*` functions do:
an empty error list yields a fresh `ValidationResult`, otherwise the
errors are converted by `_pydantic_errors_to_result`. -/
def pydanticToResult (model : PyVal → List VErr) (data : PyVal) :
    ValidationResult :=
  match model data with
  | [] => ⟨[], []⟩
  | errs => _pydantic_errors_to_result errs

/-- `_add_attacker_warnings`. -/
def _add_attacker_warnings (data : PyVal) : Option (List String) := do
  let attack ← pyGetOpt data "attack_results" (.dict [])
  let findings ← pyGetOpt attack "findings" (.list [])
  let n ← pyLen findings
  let w0 := if n == 0 then
    ["No findings reported - verify this is intentional"] else []
  let items ← pyIter findings
  let perFinding ← (List.range items.length).zip items |>.mapM (fun p => do
    let fid ← pyGetOpt p.2 "id" (.str "unknown")
    let hasEv ← pyContains "evidence" p.2
    let hasRec ← pyContains "recommendation" p.2
    pure ((if !hasEv then
        ["Finding [" ++ toString p.1 ++ "] (" ++ pyStrOf fid ++
          "): missing \x27evidence\x27 field"] else []) ++
      (if !hasRec then
        ["Finding [" ++ toString p.1 ++ "] (" ++ pyStrOf fid ++
          "): missing \x27recommendation\x27 field"] else [])))
  let cats ← pyGetOpt attack "categories_probed" (.list [])
  let catItems ← pyIter cats
  let catWs := catItems.filterMap (fun cat =>
    let isKnown := match cat with
      | .str s => RiskCategoryNameVals.contains s
      | _ => false
    if isKnown then none
    else some ("Unknown risk category: \x27" ++ pyStrOf cat ++ "\x27"))
  pure (w0 ++ perFinding.flatten ++ catWs)

/-- `_add_grounding_warnings`. -/
def _add_grounding_warnings (data : PyVal) : Option (List String) := do
  let grounding ← pyGetOpt data "grounding_results" (.dict [])
  let assessments ← pyGetOpt grounding "assessments" (.list [])
  let items ← pyIter assessments
  let per ← (List.range items.length).zip items |>.mapM (fun p => do
    let hasAdj ← pyContains "adjusted_confidence" p.2
    let hasNotes ← pyContains "notes" p.2
    pure ((if !hasAdj then
        ["Assessment [" ++ toString p.1 ++ "]: missing \x27adjusted_confidence\x27"]
      else []) ++
      (if !hasNotes then
        ["Assessment [" ++ toString p.1 ++
          "]: missing \x27notes\x27 - explain rationale"] else [])))
  pure per.flatten

/-- `_add_context_warnings`. -/
def _add_context_warnings (data : PyVal) : Option (List String) := do
  let analysis ← pyGetOpt data "context_analysis" (.dict [])
  let claims ← pyGetOpt analysis "claim_analysis" (.list [])
  let items ← pyIter claims
  let per ← (List.range items.length).zip items |>.mapM (fun p => do
    let hasRisk ← pyContains "risk_level" p.2
    pure (if !hasRisk then
      ["Claim [" ++ toString p.1 ++ "]: missing \x27risk_level\x27"] else []))
  pure per.flatten

/-- `_add_report_warnings` (`MIN_SUMMARY_LENGTH = 50`). -/
def _add_report_warnings (data : PyVal) : Option (List String) := do
  let hasLim ← pyContains "limitations" data
  let summary ← pyGetOpt data "executive_summary" (.str "")
  pure ((if !hasLim then ["Missing \x27limitations\x27 section"] else []) ++
    (if (pyStrOf summary).length < 50 then
      ["Executive summary seems too short"] else []))

/-- `_add_strategy_warnings`. -/
def _add_strategy_warnings (data : PyVal) : Option (List String) := do
  let strategy ← pyGetOpt data "attack_strategy" (.dict [])
  let vectors ← pyGetOpt strategy "selected_vectors" .none_
  let assignments ← pyGetOpt strategy "attacker_assignments" .none_
  pure ((if !pyTruthy vectors then ["No attack vectors selected"] else []) ++
    (if !pyTruthy assignments then ["No attacker assignments defined"] else []))

/-- `_add_diff_analysis_warnings`. -/
def _add_diff_analysis_warnings (data : PyVal) : Option (List String) := do
  let analysis ← pyGetOpt data "diff_analysis" (.dict [])
  if !pyTruthy analysis then
    pure ["Empty diff_analysis section"]
  else do
    let hasSummary ← pyContains "summary" analysis
    let hasFA ← pyContains "file_analysis" analysis
    let fa ← pyGetOpt analysis "file_analysis" .none_
    let hasRS ← pyContains "risk_surface" analysis
    let rs ← pyGetOpt analysis "risk_surface" .none_
    let faList ← pyGetOpt analysis "file_analysis" (.list [])
    let items ← pyIter faList
    let per ← (List.range items.length).zip items |>.mapM (fun p => do
      let hasRF ← pyContains "risk_factors" p.2
      let rf ← pyGetOpt p.2 "risk_factors" .none_
      let hasLR ← pyContains "line_ranges" p.2
      let lr ← pyGetOpt p.2 "line_ranges" .none_
      pure ((if !hasRF || !pyTruthy rf then
          ["File [" ++ toString p.1 ++
            "]: missing or empty \x27risk_factors\x27 - explain risk rationale"]
        else []) ++
        (if !hasLR || !pyTruthy lr then
          ["File [" ++ toString p.1 ++
            "]: missing or empty \x27line_ranges\x27 - specify affected lines"]
        else [])))
    pure ((if !hasSummary then
        ["Missing \x27summary\x27 section in diff_analysis"] else []) ++
      (if !hasFA || !pyTruthy fa then
        ["Missing or empty \x27file_analysis\x27 section"] else []) ++
      (if !hasRS || !pyTruthy rs then
        ["Missing or empty \x27risk_surface\x27 section"] else []) ++
      per.flatten)

/-- `_add_code_attacker_warnings`. -/
def _add_code_attacker_warnings (data : PyVal) : Option (List String) := do
  let attack ← pyGetOpt data "attack_results" (.dict [])
  if !pyTruthy attack then
    pure ["Empty attack_results section"]
  else do
    let findings ← pyGetOpt attack "findings" (.list [])
    let n ← pyLen findings
    let w0 := if n == 0 then
      ["No findings reported - verify this is intentional"] else []
    let items ← pyIter findings
    let per ← (List.range items.length).zip items |>.mapM (fun p => do
      let fid ← pyGetOpt p.2 "id" (.str "unknown")
      let target ← pyGetOpt p.2 "target" (.dict [])
      let targetW ←
        if !pyTruthy target then
          pure ["Finding [" ++ toString p.1 ++ "] (" ++ pyStrOf fid ++
            "): missing \x27target\x27 field"]
        else do
          let hasLN ← pyContains "line_numbers" target
          let ln ← pyGetOpt target "line_numbers" .none_
          pure (if !hasLN || !pyTruthy ln then
            ["Finding [" ++ toString p.1 ++ "] (" ++ pyStrOf fid ++
              "): missing line numbers in target"] else [])
      let hasEv ← pyContains "evidence" p.2
      let hasAA ← pyContains "attack_applied" p.2
      let hasRec ← pyContains "recommendation" p.2
      pure (targetW ++
        (if !hasEv then
          ["Finding [" ++ toString p.1 ++ "] (" ++ pyStrOf fid ++
            "): missing \x27evidence\x27 field"] else []) ++
        (if !hasAA then
          ["Finding [" ++ toString p.1 ++ "] (" ++ pyStrOf fid ++
            "): missing \x27attack_applied\x27 field"] else []) ++
        (if !hasRec then
          ["Finding [" ++ toString p.1 ++ "] (" ++ pyStrOf fid ++
            "): missing \x27recommendation\x27 field"] else [])))
    let hasSummary ← pyContains "summary" attack
    pure (w0 ++ per.flatten ++
      (if !hasSummary then
        ["Missing \x27summary\x27 section in attack_results"] else []))

/-- `_add_pr_report_warnings`. -/
def _add_pr_report_warnings (data : PyVal) : Option (List String) := do
  let hasTCN ← pyContains "test_coverage_notes" data
  let summary ← pyGetOpt data "executive_summary" (.str "")
  let findings ← pyGetOpt data "findings" .none_
  let recs ← pyGetOpt data "recommendations" .none_
  pure ((if !hasTCN then
      ["Missing \x27test_coverage_notes\x27 - consider test coverage"] else []) ++
    (if (pyStrOf summary).length < 50 then
      ["Executive summary seems too short"] else []) ++
    (if !pyTruthy findings then
      ["No findings reported - verify this is intentional"] else []) ++
    (if !pyTruthy recs then ["No recommendations provided"] else []))

/-- `validate_attacker_output`: Pydantic errors for `AttackerOutput`,
then the attacker warning pass. -/
def validate_attacker_output (data : PyVal) : Option ValidationResult := do
  let base := pydanticToResult AttackerOutput data
  let ws ← _add_attacker_warnings data
  pure { base with warnings := base.warnings ++ ws }

/-- `validate_grounding_output`. -/
def validate_grounding_output (data : PyVal) : Option ValidationResult := do
  let base := pydanticToResult GroundingOutput data
  let ws ← _add_grounding_warnings data
  pure { base with warnings := base.warnings ++ ws }

/-- `validate_context_analysis`. -/
def validate_context_analysis (data : PyVal) : Option ValidationResult := do
  let base := pydanticToResult ContextAnalysisOutput data
  let ws ← _add_context_warnings data
  pure { base with warnings := base.warnings ++ ws }

/-- `validate_final_report`. -/
def validate_final_report (data : PyVal) : Option ValidationResult := do
  let base := pydanticToResult RedTeamReport data
  let ws ← _add_report_warnings data
  pure { base with warnings := base.warnings ++ ws }

/-- `validate_strategy_output`. -/
def validate_strategy_output (data : PyVal) : Option ValidationResult := do
  let base := pydanticToResult AttackStrategyOutput data
  let ws ← _add_strategy_warnings data
  pure { base with warnings := base.warnings ++ ws }

/-- `validate_diff_analysis`. -/
def validate_diff_analysis (data : PyVal) : Option ValidationResult := do
  let base := pydanticToResult DiffAnalysisOutput data
  let ws ← _add_diff_analysis_warnings data
  pure { base with warnings := base.warnings ++ ws }

/-- `validate_code_attacker`. -/
def validate_code_attacker (data : PyVal) : Option ValidationResult := do
  let base := pydanticToResult CodeAttackerOutput data
  let ws ← _add_code_attacker_warnings data
  pure { base with warnings := base.warnings ++ ws }

/-- `validate_pr_report`. -/
def validate_pr_report (data : PyVal) : Option ValidationResult := do
  let base := pydanticToResult PRRedTeamReport data
  let ws ← _add_pr_report_warnings data
  pure { base with warnings := base.warnings ++ ws }

/-- The keys of the CLI `validators` dictionary, in insertion order. -/
def cliValidatorTypes : List String :=
  ["attacker", "grounding", "context", "report", "strategy",
   "diff_analysis", "code_attacker", "pr_report"]

/-- Python `repr` of a list of strings, for the unknown-type message. -/
def strListRepr (xs : List String) : String :=
  "[" ++ String.intercalate ", " (xs.map (fun s => "\x27" ++ s ++ "\x27")) ++ "]"

/-- `validate_output` of the CLI script: dispatch on the output type; an
unregistered type yields a `ValidationResult` carrying a hard
`Unknown output type` error (never a pass). -/
def validate_output (data : PyVal) (output_type : String) :
    Option ValidationResult :=
  if output_type ∉ cliValidatorTypes then
    some ⟨["Unknown output type: " ++ output_type ++ ". Valid: " ++
      strListRepr cliValidatorTypes], []⟩
  else if output_type == "attacker" then validate_attacker_output data
  else if output_type == "grounding" then validate_grounding_output data
  else if output_type == "context" then validate_context_analysis data
  else if output_type == "report" then validate_final_report data
  else if output_type == "strategy" then validate_strategy_output data
  else if output_type == "diff_analysis" then validate_diff_analysis data
  else if output_type == "code_attacker" then validate_code_attacker data
  else validate_pr_report data

/-- The exit-code decision of the CLI `main` (after printing the result):
`1` when invalid, `1` when `--strict` and any warnings remain, else `0`. -/
def cliExitCode (result : ValidationResult) (strict : Bool) : Nat :=
  if !result.is_valid then 1
  else if strict && !result.warnings.isEmpty then 1
  else 0

/-! ## Context-engineering models (`src/src/context_engineering/models/`)

Models validated by the context-engineering hook and the
`validate_improvement_output.py` script.  Two class names collide with
red-agent classes embedded above and carry a `CE_` prefix here:
`CE_DetectedPattern` (`analysis_outputs.DetectedPattern`) and
`CE_BreakingChange` (`grounding_outputs.BreakingChange`). -/

/-- `ContextTier` enumeration values. -/
def ContextTierVals : List String :=
  ["FULL", "SELECTIVE", "FILTERED", "MINIMAL", "METADATA"]

/-- `ImprovementType` enumeration values. -/
def ImprovementTypeVals : List String :=
  ["TIER_SPEC", "NOT_PASSED", "REFERENCE_PATTERN", "LAZY_LOAD",
   "FIREWALL", "PHASE_SPLIT", "SUBAGENT_EXTRACT",
   "HANDOFF_SCHEMA", "PYDANTIC_MODEL", "VALIDATION_HOOK", "SEVERITY_BATCH"]

/-- `PatternType` enumeration values. -/
def PatternTypeVals : List String :=
  ["HIERARCHICAL", "SWARM", "REACT", "PLAN_EXECUTE", "REFLECTION",
   "HYBRID", "FIREWALL"]

/-- `RiskLevel` enumeration values. -/
def RiskLevelVals : List String := ["CRITICAL", "HIGH", "MEDIUM", "LOW"]

/-- `ViolationType` enumeration values. -/
def ViolationTypeVals : List String :=
  ["FULL_SNAPSHOT", "UNNECESSARY_FIELDS", "MISSING_TIER", "WRONG_TIER",
   "LARGE_EMBEDDING", "REPEATED_CONTEXT", "UPFRONT_LOAD",
   "SNAPSHOT_BROADCAST", "DEFENSIVE_INCLUSION", "GROUNDING_EVERYTHING"]

/-- `ChallengeValidity` enumeration values. -/
def ChallengeValidityVals : List String :=
  ["SUPPORTED", "UNSUPPORTED", "UNCERTAIN"]

/-- `CodeChange` (`improvement_outputs.py`). -/
def CodeChange : PyVal → List VErr
  | .dict kvs =>
      reqField kvs "before" strChk ++
      reqField kvs "after" strChk ++
      optField kvs "explanation" (nullable strChk)
  | _ => modelTypeErr "CodeChange"

/-- The declared field names of `ContextImprovement`
(`extra="forbid"`). -/
def contextImprovementFields : List String :=
  ["id", "file", "improvement_type", "description", "code_change",
   "estimated_reduction", "priority", "recommended_tier",
   "fields_to_exclude"]

/-- `ContextImprovement` (`improvement_outputs.py`, `extra="forbid"`):
the context-optimizer element schema. -/
def ContextImprovement : PyVal → List VErr
  | .dict kvs =>
      reqField kvs "id" strChk ++
      reqField kvs "file" strChk ++
      reqField kvs "improvement_type" (enumChk ImprovementTypeVals) ++
      reqField kvs "description" strChk ++
      optField kvs "code_change" (nullable CodeChange) ++
      optField kvs "estimated_reduction" (nullable (floatChk (some 0) (some 1))) ++
      optField kvs "priority" strChk ++
      optField kvs "recommended_tier" (nullable (enumChk ContextTierVals)) ++
      optField kvs "fields_to_exclude" (listChk strChk) ++
      extraForbidden contextImprovementFields kvs
  | _ => modelTypeErr "ContextImprovement"

/-- `AgentStructure` (`improvement_outputs.py`). -/
def AgentStructure : PyVal → List VErr
  | .dict kvs =>
      optField kvs "agents" (listChk strChk) ++
      optField kvs "hierarchy" (dictOfChk (listChk strChk)) ++
      optField kvs "entry_points" (listChk strChk)
  | _ => modelTypeErr "AgentStructure"

/-- `MigrationStep` (`improvement_outputs.py`). -/
def MigrationStep : PyVal → List VErr
  | .dict kvs =>
      reqField kvs "order" (intChk none none) ++
      reqField kvs "description" strChk ++
      optField kvs "files_affected" (listChk strChk) ++
      optField kvs "is_breaking" boolChk
  | _ => modelTypeErr "MigrationStep"

/-- `OrchestrationImprovement` (`improvement_outputs.py`,
`extra="forbid"`). -/
def OrchestrationImprovement : PyVal → List VErr
  | .dict kvs =>
      reqField kvs "id" strChk ++
      reqField kvs "improvement_type" (enumChk ImprovementTypeVals) ++
      reqField kvs "description" strChk ++
      optField kvs "current_structure" (nullable AgentStructure) ++
      optField kvs "proposed_structure" (nullable AgentStructure) ++
      optField kvs "files_affected" (listChk strChk) ++
      optField kvs "migration_steps" (listChk MigrationStep) ++
      optField kvs "estimated_complexity" strChk ++
      optField kvs "priority" strChk ++
      extraForbidden ["id", "improvement_type", "description",
        "current_structure", "proposed_structure", "files_affected",
        "migration_steps", "estimated_complexity", "priority"] kvs
  | _ => modelTypeErr "OrchestrationImprovement"

/-- `HandoffTransition` (`improvement_outputs.py`). -/
def HandoffTransition : PyVal → List VErr
  | .dict kvs =>
      reqField kvs "from_agent" strChk ++
      reqField kvs "to_agent" strChk
  | _ => modelTypeErr "HandoffTransition"

/-- `HandoffPayload` (`improvement_outputs.py`). -/
def HandoffPayload : PyVal → List VErr
  | .dict kvs =>
      optField kvs "fields" (listChk strChk) ++
      optField kvs "excluded_fields" (listChk strChk) ++
      reqField kvs "context_tier" (enumChk ContextTierVals)
  | _ => modelTypeErr "HandoffPayload"

/-- `HandoffImprovement` (`improvement_outputs.py`, `extra="forbid"`). -/
def HandoffImprovement : PyVal → List VErr
  | .dict kvs =>
      reqField kvs "id" strChk ++
      reqField kvs "transition" HandoffTransition ++
      reqField kvs "description" strChk ++
      optField kvs "current_handoff" (listChk strChk) ++
      optField kvs "optimized_handoff" (nullable HandoffPayload) ++
      optField kvs "yaml_schema" (nullable strChk) ++
      optField kvs "pydantic_model" (nullable strChk) ++
      optField kvs "estimated_reduction" (nullable (floatChk (some 0) (some 1))) ++
      optField kvs "priority" strChk ++
      extraForbidden ["id", "transition", "description", "current_handoff",
        "optimized_handoff", "yaml_schema", "pydantic_model",
        "estimated_reduction", "priority"] kvs
  | _ => modelTypeErr "HandoffImprovement"

/-- `PlanPhase` (`improvement_outputs.py`). -/
def PlanPhase : PyVal → List VErr
  | .dict kvs =>
      reqField kvs "name" strChk ++
      optField kvs "description" (nullable strChk) ++
      optField kvs "agents_involved" (listChk strChk) ++
      optField kvs "context_received" (listChk strChk) ++
      optField kvs "context_tier" (nullable (enumChk ContextTierVals)) ++
      optField kvs "issues" (listChk strChk)
  | _ => modelTypeErr "PlanPhase"

/-- `HandoffPoint` (`improvement_outputs.py`). -/
def HandoffPoint : PyVal → List VErr
  | .dict kvs =>
      reqField kvs "from_phase" strChk ++
      reqField kvs "to_phase" strChk ++
      optField kvs "data_transferred" (listChk strChk) ++
      optField kvs "potential_issues" (listChk strChk)
  | _ => modelTypeErr "HandoffPoint"

/-- `PlanAnalysis` (`improvement_outputs.py`, `extra="forbid"`). -/
def PlanAnalysis : PyVal → List VErr
  | .dict kvs =>
      optField kvs "plan_name" (nullable strChk) ++
      optField kvs "phases" (listChk PlanPhase) ++
      optField kvs "context_per_phase" (dictOfChk (listChk strChk)) ++
      optField kvs "handoff_points" (listChk HandoffPoint) ++
      optField kvs "violations" (listChk strChk) ++
      optField kvs "total_phases" (intChk none none) ++
      optField kvs "phases_with_tier_spec" (intChk none none) ++
      optField kvs "estimated_total_context" (nullable strChk) ++
      extraForbidden ["plan_name", "phases", "context_per_phase",
        "handoff_points", "violations", "total_phases",
        "phases_with_tier_spec", "estimated_total_context"] kvs
  | _ => modelTypeErr "PlanAnalysis"

/-- `PatternViolation` (`analysis_outputs.py`, `extra="forbid"`). -/
def PatternViolation : PyVal → List VErr
  | .dict kvs =>
      reqField kvs "violation_type" (enumChk ViolationTypeVals) ++
      reqField kvs "file" strChk ++
      optField kvs "line" (nullable (intChk none none)) ++
      reqField kvs "description" strChk ++
      optField kvs "current_code" (nullable strChk) ++
      reqField kvs "recommendation" strChk ++
      optField kvs "severity" strChk ++
      extraForbidden ["violation_type", "file", "line", "description",
        "current_code", "recommendation", "severity"] kvs
  | _ => modelTypeErr "PatternViolation"

/-- `DetectedPattern` of `analysis_outputs.py` (prefixed to avoid the
clash with the red-agent class of the same name). -/
def CE_DetectedPattern : PyVal → List VErr
  | .dict kvs =>
      reqField kvs "pattern_type" (enumChk PatternTypeVals) ++
      reqField kvs "confidence" (floatChk (some 0) (some 1)) ++
      optField kvs "evidence" (listChk strChk) ++
      optField kvs "files" (listChk strChk)
  | _ => modelTypeErr "DetectedPattern"

/-- `AgentAnalysis` (`analysis_outputs.py`). -/
def AgentAnalysis : PyVal → List VErr
  | .dict kvs =>
      reqField kvs "file" strChk ++
      reqField kvs "agent_type" strChk ++
      optField kvs "tools" (listChk strChk) ++
      optField kvs "context_tier" (nullable (enumChk ContextTierVals)) ++
      optField kvs "receives" (listChk strChk) ++
      optField kvs "not_provided" (listChk strChk) ++
      optField kvs "estimated_tokens" (nullable (intChk none none)) ++
      optField kvs "issues" (listChk strChk)
  | _ => modelTypeErr "AgentAnalysis"

/-- `PluginMetrics` (`analysis_outputs.py`). -/
def PluginMetrics : PyVal → List VErr
  | .dict kvs =>
      optField kvs "total_files" (intChk none none) ++
      optField kvs "agent_count" (intChk none none) ++
      optField kvs "entry_agents" (intChk none none) ++
      optField kvs "sub_agents" (intChk none none) ++
      optField kvs "command_count" (intChk none none) ++
      optField kvs "skill_count" (intChk none none) ++
      optField kvs "estimated_total_tokens" (nullable (intChk none none)) ++
      optField kvs "tier_compliance" (floatChk (some 0) (some 1))
  | _ => modelTypeErr "PluginMetrics"

/-- `ImprovementOpportunity` (`analysis_outputs.py`). -/
def ImprovementOpportunity : PyVal → List VErr
  | .dict kvs =>
      reqField kvs "category" strChk ++
      reqField kvs "description" strChk ++
      optField kvs "files_affected" (listChk strChk) ++
      optField kvs "estimated_reduction" (nullable (floatChk (some 0) (some 1))) ++
      optField kvs "priority" strChk ++
      reqField kvs "improvement_type" strChk
  | _ => modelTypeErr "ImprovementOpportunity"

/-- `PluginAnalysis` (`analysis_outputs.py`, `extra="forbid"`): the
plugin-analyzer root schema. -/
def PluginAnalysis : PyVal → List VErr
  | .dict kvs =>
      reqField kvs "plugin_name" strChk ++
      optField kvs "plugin_version" (nullable strChk) ++
      optField kvs "current_patterns" (listChk CE_DetectedPattern) ++
      optField kvs "violations" (listChk PatternViolation) ++
      optField kvs "agents" (listChk AgentAnalysis) ++
      optField kvs "opportunities" (listChk ImprovementOpportunity) ++
      optField kvs "metrics" PluginMetrics ++
      optField kvs "summary" (nullable strChk) ++
      extraForbidden ["plugin_name", "plugin_version", "current_patterns",
        "violations", "agents", "opportunities", "metrics", "summary"] kvs
  | _ => modelTypeErr "PluginAnalysis"

/-- `FlowEdge` (`analysis_outputs.py`, `extra="forbid"`). -/
def FlowEdge : PyVal → List VErr
  | .dict kvs =>
      reqField kvs "from_agent" strChk ++
      reqField kvs "to_agent" strChk ++
      optField kvs "data_passed" (listChk strChk) ++
      optField kvs "data_size_estimate" (nullable strChk) ++
      optField kvs "context_tier" (nullable (enumChk ContextTierVals)) ++
      optField kvs "is_redundant" boolChk ++
      optField kvs "redundancy_reason" (nullable strChk) ++
      extraForbidden ["from_agent", "to_agent", "data_passed",
        "data_size_estimate", "context_tier", "is_redundant",
        "redundancy_reason"] kvs
  | _ => modelTypeErr "FlowEdge"

/-- `RedundancyIssue` (`analysis_outputs.py`). -/
def RedundancyIssue : PyVal → List VErr
  | .dict kvs =>
      reqField kvs "description" strChk ++
      optField kvs "agents_affected" (listChk strChk) ++
      optField kvs "data_duplicated" (listChk strChk) ++
      optField kvs "estimated_waste" (nullable strChk)
  | _ => modelTypeErr "RedundancyIssue"

/-- `ContextFlowMap` (`analysis_outputs.py`, `extra="forbid"`): the
context-flow-mapper root schema. -/
def ContextFlowMap : PyVal → List VErr
  | .dict kvs =>
      optField kvs "flows" (listChk FlowEdge) ++
      optField kvs "redundancies" (listChk RedundancyIssue) ++
      optField kvs "missing_tiers" (listChk strChk) ++
      optField kvs "total_flows" (intChk none none) ++
      optField kvs "redundant_flows" (intChk none none) ++
      optField kvs "agents_mapped" (intChk none none) ++
      extraForbidden ["flows", "redundancies", "missing_tiers",
        "total_flows", "redundant_flows", "agents_mapped"] kvs
  | _ => modelTypeErr "ContextFlowMap"

/-- `PatternViolationDetail` (`grounding_outputs.py`). -/
def PatternViolationDetail : PyVal → List VErr
  | .dict kvs =>
      reqField kvs "pattern" (enumChk PatternTypeVals) ++
      reqField kvs "violation" strChk ++
      optField kvs "location" (nullable strChk) ++
      optField kvs "suggestion" (nullable strChk)
  | _ => modelTypeErr "PatternViolationDetail"

/-- `PatternCompliance` (`grounding_outputs.py`, `extra="forbid"`). -/
def PatternCompliance : PyVal → List VErr
  | .dict kvs =>
      reqField kvs "improvement_id" strChk ++
      reqField kvs "pattern_compliant" boolChk ++
      optField kvs "patterns_checked" (listChk (enumChk PatternTypeVals)) ++
      optField kvs "violations" (listChk PatternViolationDetail) ++
      optField kvs "suggestions" (listChk strChk) ++
      optField kvs "confidence" (floatChk (some 0) (some 1)) ++
      extraForbidden ["improvement_id", "pattern_compliant",
        "patterns_checked", "violations", "suggestions", "confidence"] kvs
  | _ => modelTypeErr "PatternCompliance"

/-- `TokenBreakdown` (`grounding_outputs.py`). -/
def TokenBreakdown : PyVal → List VErr
  | .dict kvs =>
      reqField kvs "component" strChk ++
      reqField kvs "before" (intChk none none) ++
      reqField kvs "after" (intChk none none) ++
      reqField kvs "reduction" (intChk none none) ++
      reqField kvs "reduction_percent" (floatChk (some (-100)) (some 100))
  | _ => modelTypeErr "TokenBreakdown"

/-- `TokenEstimate` (`grounding_outputs.py`, `extra="forbid"`). -/
def TokenEstimate : PyVal → List VErr
  | .dict kvs =>
      reqField kvs "improvement_id" strChk ++
      reqField kvs "before_tokens" (intChk (some 0) none) ++
      reqField kvs "after_tokens" (intChk (some 0) none) ++
      optField kvs "reduction_tokens" (intChk none none) ++
      optField kvs "reduction_percent" (floatChk (some (-100)) (some 100)) ++
      optField kvs "confidence" (floatChk (some 0) (some 1)) ++
      optField kvs "breakdown" (listChk TokenBreakdown) ++
      optField kvs "method" (nullable strChk) ++
      optField kvs "notes" (nullable strChk) ++
      extraForbidden ["improvement_id", "before_tokens", "after_tokens",
        "reduction_tokens", "reduction_percent", "confidence",
        "breakdown", "method", "notes"] kvs
  | _ => modelTypeErr "TokenEstimate"

/-- `ConflictDetail` (`grounding_outputs.py`). -/
def ConflictDetail : PyVal → List VErr
  | .dict kvs =>
      reqField kvs "with_improvement_id" strChk ++
      reqField kvs "conflict_type" strChk ++
      reqField kvs "description" strChk ++
      optField kvs "resolution" (nullable strChk)
  | _ => modelTypeErr "ConflictDetail"

/-- `DependencyDetail` (`grounding_outputs.py`). -/
def DependencyDetail : PyVal → List VErr
  | .dict kvs =>
      reqField kvs "requires_improvement_id" strChk ++
      reqField kvs "reason" strChk ++
      optField kvs "is_hard_dependency" boolChk
  | _ => modelTypeErr "DependencyDetail"

/-- `ConsistencyCheck` (`grounding_outputs.py`, `extra="forbid"`). -/
def ConsistencyCheck : PyVal → List VErr
  | .dict kvs =>
      reqField kvs "improvement_id" strChk ++
      reqField kvs "is_internally_consistent" boolChk ++
      optField kvs "conflicts_with" (listChk ConflictDetail) ++
      optField kvs "depends_on" (listChk DependencyDetail) ++
      optField kvs "consistency_issues" (listChk strChk) ++
      optField kvs "recommended_order" (nullable (intChk none none)) ++
      extraForbidden ["improvement_id", "is_internally_consistent",
        "conflicts_with", "depends_on", "consistency_issues",
        "recommended_order"] kvs
  | _ => modelTypeErr "ConsistencyCheck"

/-- `BreakingChange` of `grounding_outputs.py` (prefixed to avoid the
clash with the PR-analysis class of the same name). -/
def CE_BreakingChange : PyVal → List VErr
  | .dict kvs =>
      reqField kvs "description" strChk ++
      reqField kvs "affected_component" strChk ++
      optField kvs "mitigation" (nullable strChk)
  | _ => modelTypeErr "BreakingChange"

/-- `RiskAssessment` (`grounding_outputs.py`, `extra="forbid"`). -/
def RiskAssessment : PyVal → List VErr
  | .dict kvs =>
      reqField kvs "improvement_id" strChk ++
      reqField kvs "risk_level" (enumChk RiskLevelVals) ++
      optField kvs "breaking_changes" (listChk CE_BreakingChange) ++
      optField kvs "rollback_possible" boolChk ++
      optField kvs "rollback_complexity" (nullable strChk) ++
      optField kvs "mitigation_strategy" (nullable strChk) ++
      optField kvs "testing_required" (listChk strChk) ++
      optField kvs "confidence" (floatChk (some 0) (some 1)) ++
      optField kvs "notes" (nullable strChk) ++
      extraForbidden ["improvement_id", "risk_level", "breaking_changes",
        "rollback_possible", "rollback_complexity", "mitigation_strategy",
        "testing_required", "confidence", "notes"] kvs
  | _ => modelTypeErr "RiskAssessment"

/-- `ChallengeAssessment` (`grounding_outputs.py`, `extra="forbid"`):
the challenger element schema — gaps, alternatives and required_evidence
are required lists. -/
def ChallengeAssessment : PyVal → List VErr
  | .dict kvs =>
      reqField kvs "improvement_id" strChk ++
      reqField kvs "claim" strChk ++
      reqField kvs "validity" (enumChk ChallengeValidityVals) ++
      reqField kvs "evidence_strength" (floatChk (some 0) (some 1)) ++
      reqField kvs "gaps" (listChk strChk) ++
      reqField kvs "alternatives" (listChk strChk) ++
      reqField kvs "required_evidence" (listChk strChk) ++
      extraForbidden ["improvement_id", "claim", "validity",
        "evidence_strength", "gaps", "alternatives", "required_evidence"] kvs
  | _ => modelTypeErr "ChallengeAssessment"

/-- `FileDiff` (`synthesis_outputs.py`). -/
def FileDiff : PyVal → List VErr
  | .dict kvs =>
      optField kvs "before" (nullable strChk) ++
      optField kvs "after" (nullable strChk) ++
      optField kvs "diff" (nullable strChk)
  | _ => modelTypeErr "FileDiff"

/-- `FileChange` (`synthesis_outputs.py`). -/
def FileChange : PyVal → List VErr
  | .dict kvs =>
      reqField kvs "file_path" strChk ++
      reqField kvs "change_type" strChk ++
      reqField kvs "description" strChk ++
      optField kvs "diff" (nullable FileDiff)
  | _ => modelTypeErr "FileChange"

/-- `TokenMetrics` (`synthesis_outputs.py`). -/
def TokenMetrics : PyVal → List VErr
  | .dict kvs =>
      optField kvs "before" (intChk (some 0) none) ++
      optField kvs "after" (intChk (some 0) none) ++
      optField kvs "reduction" (intChk none none) ++
      optField kvs "reduction_percent" (floatChk (some (-100)) (some 100))
  | _ => modelTypeErr "TokenMetrics"

/-- `PatternComplianceMetrics` (`synthesis_outputs.py`). -/
def PatternComplianceMetrics : PyVal → List VErr
  | .dict kvs =>
      optField kvs "before" (floatChk (some 0) (some 1)) ++
      optField kvs "after" (floatChk (some 0) (some 1)) ++
      optField kvs "improvement" (floatChk (some (-1)) (some 1))
  | _ => modelTypeErr "PatternComplianceMetrics"

/-- `TierCoverageMetrics` (`synthesis_outputs.py`). -/
def TierCoverageMetrics : PyVal → List VErr
  | .dict kvs =>
      optField kvs "before" (floatChk (some 0) (some 1)) ++
      optField kvs "after" (floatChk (some 0) (some 1)) ++
      optField kvs "improvement" (floatChk (some (-1)) (some 1))
  | _ => modelTypeErr "TierCoverageMetrics"

/-- `BeforeAfterComparison` (`synthesis_outputs.py`, `extra="forbid"`). -/
def BeforeAfterComparison : PyVal → List VErr
  | .dict kvs =>
      optField kvs "total_tokens" TokenMetrics ++
      optField kvs "pattern_compliance" PatternComplianceMetrics ++
      optField kvs "tier_coverage" TierCoverageMetrics ++
      extraForbidden ["total_tokens", "pattern_compliance", "tier_coverage"] kvs
  | _ => modelTypeErr "BeforeAfterComparison"

/-- `AppliedImprovement` (`synthesis_outputs.py`). -/
def AppliedImprovement : PyVal → List VErr
  | .dict kvs =>
      reqField kvs "improvement_id" strChk ++
      reqField kvs "description" strChk ++
      optField kvs "files_modified" (listChk strChk) ++
      optField kvs "token_reduction" (nullable (intChk none none)) ++
      optField kvs "risk_level" (nullable strChk)
  | _ => modelTypeErr "AppliedImprovement"

/-- `NextStep` (`synthesis_outputs.py`). -/
def NextStep : PyVal → List VErr
  | .dict kvs =>
      reqField kvs "description" strChk ++
      optField kvs "priority" strChk ++
      optField kvs "rationale" (nullable strChk)
  | _ => modelTypeErr "NextStep"

/-- `ImprovementReport` (`synthesis_outputs.py`, `extra="forbid"`): the
improvement-synthesizer root schema. -/
def ImprovementReport : PyVal → List VErr
  | .dict kvs =>
      reqField kvs "executive_summary" strChk ++
      optField kvs "improvements_applied" (listChk AppliedImprovement) ++
      optField kvs "improvements_skipped" (listChk strChk) ++
      optField kvs "comparison" BeforeAfterComparison ++
      optField kvs "files_modified" (listChk FileChange) ++
      optField kvs "files_created" (listChk strChk) ++
      optField kvs "files_deleted" (listChk strChk) ++
      optField kvs "total_improvements" (intChk none none) ++
      optField kvs "applied_count" (intChk none none) ++
      optField kvs "skipped_count" (intChk none none) ++
      optField kvs "next_steps" (listChk NextStep) ++
      optField kvs "plugin_name" (nullable strChk) ++
      optField kvs "analysis_mode" (nullable strChk) ++
      extraForbidden ["executive_summary", "improvements_applied",
        "improvements_skipped", "comparison", "files_modified",
        "files_created", "files_deleted", "total_improvements",
        "applied_count", "skipped_count", "next_steps", "plugin_name",
        "analysis_mode"] kvs
  | _ => modelTypeErr "ImprovementReport"

/-! ## Context-engineering hook
(`src/context-engineering/hooks/validate-agent-output.py`) -/

/-- Boolean substring test (`needle in hay` for Python strings). -/
def strContainsSub (needle hay : String) : Bool :=
  (List.range (hay.data.length + 1)).any
    (fun i => needle.data.isPrefixOf (hay.data.drop i))

/-- `format_validation_error`: `- <dotted.loc>: <msg>`, followed by an
indented `Hint:` line selected by substring tests on the error type (a
static hint table; error kinds matching no test get no hint line). -/
def format_validation_error (e : VErr) : String :=
  let location := locDotted e.loc
  let formatted := "- " ++ location ++ ": " ++ e.msg
  if strContainsSub "missing" e.etype then
    formatted ++ "\n  Hint: Add \x27" ++ location ++ "\x27 field to output"
  else if strContainsSub "enum" e.etype || strContainsSub "literal" e.etype then
    formatted ++ "\n  Hint: Check valid values in model definition"
  else if strContainsSub "type_error.float" e.etype ||
      strContainsSub "greater_than" e.etype then
    formatted ++ "\n  Hint: Value must be numeric in valid range"
  else if strContainsSub "string_too_short" e.etype then
    formatted ++ "\n  Hint: Field requires more content"
  else formatted

/-- `AGENT_TYPE_MAP`: agent name → Pydantic model, in insertion order. -/
def AGENT_TYPE_MAP : List (String × (PyVal → List VErr)) :=
  [("plugin-analyzer", PluginAnalysis),
   ("plan-analyzer", PlanAnalysis),
   ("context-flow-mapper", ContextFlowMap),
   ("context-optimizer", ContextImprovement),
   ("orchestration-improver", OrchestrationImprovement),
   ("handoff-improver", HandoffImprovement),
   ("pattern-checker", PatternCompliance),
   ("token-estimator", TokenEstimate),
   ("consistency-checker", ConsistencyCheck),
   ("risk-assessor", RiskAssessment),
   ("challenger", ChallengeAssessment),
   ("improvement-synthesizer", ImprovementReport),
   ("audit-synthesizer", ImprovementReport)]

/-- `ROOT_KEY_MAP`: YAML root key → agent type, in insertion order. -/
def ROOT_KEY_MAP : List (String × String) :=
  [("plugin_analysis", "plugin-analyzer"),
   ("plan_analysis", "plan-analyzer"),
   ("context_flow_map", "context-flow-mapper"),
   ("improvements", "context-optimizer"),
   ("improvement_report", "improvement-synthesizer"),
   ("challenge_assessments", "challenger")]

/-- Python whitespace class `\s` (ASCII part; the validated texts contain
no non-ASCII whitespace). -/
def isPySpace (c : Char) : Bool :=
  c == ' ' || c == '\t' || c == '\n' || c == '\r' || c == '\x0b' || c == '\x0c'

/-- Split at the earliest occurrence of `pat`: returns the part before
the occurrence and the part after it (the lazy `(.*?)` step). -/
def splitAtSub? (pat : List Char) : List Char → Option (List Char × List Char)
  | [] => if pat.isEmpty then some ([], []) else none
  | c :: t =>
      if pat.isPrefixOf (c :: t) then some ([], (c :: t).drop pat.length)
      else (splitAtSub? pat t).map (fun p => (c :: p.1, p.2))

/-- Indices of `\n` inside a whitespace run, largest first (the greedy
`\s*` step backtracks from the longest prefix ending in a newline). -/
def newlineIdxsDesc (w : List Char) : List Nat :=
  ((List.range w.length).filter (fun j => w.get? j == some '\n')).reverse

/-- Try to match `` ```yaml\s*\n(.*?)\n``` `` (with `re.DOTALL`)
starting exactly at the head of `l`; returns group 1. -/
def matchYamlFenceAt (l : List Char) : Option (List Char) :=
  if ("```yaml".data).isPrefixOf l then
    let rest := l.drop 7
    let w := rest.takeWhile isPySpace
    (newlineIdxsDesc w).findSome?
      (fun j => (splitAtSub? ("\n```".data) (rest.drop (j + 1))).map (fun p => p.1))
  else none

/-- `re.search` for the fence pattern: leftmost starting position wins. -/
def searchYamlFence : List Char → Option (List Char)
  | [] => none
  | c :: t =>
      match matchYamlFenceAt (c :: t) with
      | some g => some g
      | none => searchYamlFence t

/-- `extract_yaml_from_output`: first the (lowercase, `yaml`-only) fenced
pattern; failing that, the whole text is returned as a raw document iff
it contains a colon and is multi-line or under 500 characters. -/
def extract_yaml_from_output (output : String) : Option String :=
  match searchYamlFence output.data with
  | some g => some (String.mk g)
  | none =>
      if output.data.contains ':' &&
          (output.data.contains '\n' || output.length < 500) then
        some output
      else none

/-- Python `v[0]` (`list` head, first character of a `str`; `none` =
`IndexError`/`KeyError`/`TypeError`). -/
def pyIndex0 : PyVal → Option PyVal
  | .list (x :: _) => some x
  | .str s =>
      match s.data with
      | c :: _ => some (.str (String.mk [c]))
      | [] => none
  | _ => none

/-- `detect_improvement_type`: default `context-optimizer` when the
`improvements` value is falsy, otherwise decide from the first element
only — handoff fields take priority over orchestration fields (`none` =
a Python exception from indexing/membership on an unsuitable value). -/
def detect_improvement_type (kvs : List (String × PyVal)) : Option String :=
  let improvements := (lookupKey kvs "improvements").getD (.list [])
  if !pyTruthy improvements then some "context-optimizer"
  else do
    let first ← pyIndex0 improvements
    let hasTransition ← pyContains "transition" first
    if hasTransition then pure "handoff-improver"
    else do
      let hasCH ← pyContains "current_handoff" first
      if hasCH then pure "handoff-improver"
      else do
        let hasCS ← pyContains "current_structure" first
        if hasCS then pure "orchestration-improver"
        else do
          let hasPS ← pyContains "proposed_structure" first
          if hasPS then pure "orchestration-improver"
          else pure "context-optimizer"

/-- `detect_agent_type_from_yaml`: first `ROOT_KEY_MAP` entry whose root
key is present decides; the shared `improvements` key defers to
`detect_improvement_type`.  Outer `none` = Python exception; inner
`none` = no root key matched. -/
def detect_agent_type_from_yaml (kvs : List (String × PyVal)) :
    Option (Option String) :=
  match ROOT_KEY_MAP.find? (fun p => hasKey kvs p.1) with
  | some p =>
      if p.1 == "improvements" then (detect_improvement_type kvs).map some
      else some (some p.2)
  | none => some none

/-- `_extract_validation_data`: unwrap the root key; list-shaped payloads
(`improvements`, `assessments`, `challenge_assessments`) contribute only
their first element. -/
def _extract_validation_data (kvs : List (String × PyVal))
    (agent_type : String) : Option (PyVal × Option String) :=
  if agent_type == "plugin-analyzer" then
    some ((lookupKey kvs "plugin_analysis").getD (.dict []), none)
  else if agent_type == "plan-analyzer" then
    some ((lookupKey kvs "plan_analysis").getD (.dict []), none)
  else if agent_type == "context-flow-mapper" then
    some ((lookupKey kvs "context_flow_map").getD (.dict []), none)
  else if agent_type == "improvement-synthesizer" ||
      agent_type == "audit-synthesizer" then
    some ((lookupKey kvs "improvement_report").getD (.dict []), none)
  else if agent_type == "context-optimizer" ||
      agent_type == "orchestration-improver" ||
      agent_type == "handoff-improver" then
    let improvements := (lookupKey kvs "improvements").getD (.list [])
    if !pyTruthy improvements then
      some (.none_, some "No improvements found in output")
    else (pyIndex0 improvements).map (fun f => (f, none))
  else if agent_type == "pattern-checker" || agent_type == "token-estimator" ||
      agent_type == "consistency-checker" || agent_type == "risk-assessor" then
    let assessments := (lookupKey kvs "assessments").getD (.list [])
    if !pyTruthy assessments then
      some (.none_, some "No assessments found in output")
    else (pyIndex0 assessments).map (fun f => (f, none))
  else if agent_type == "challenger" then
    let assessments := (lookupKey kvs "challenge_assessments").getD (.list [])
    if !pyTruthy assessments then
      some (.none_, some "No challenge_assessments found in output")
    else (pyIndex0 assessments).map (fun f => (f, none))
  else some (.dict kvs, none)

/-- The tail of `validate_agent_output` after YAML parsing: dict check,
type detection, model lookup, payload extraction, model validation, and
the `VALID`/`INVALID` message (errors formatted with hints). -/
def validate_agent_output_parsed (data : PyVal) : Option (Bool × String) :=
  match data with
  | .dict kvs => do
      let agentTypeOpt ← detect_agent_type_from_yaml kvs
      match agentTypeOpt with
      | none =>
          pure (false, "Cannot detect agent type. Root keys: " ++
            strListRepr (kvs.map (fun p => p.1)))
      | some agent_type =>
          match (AGENT_TYPE_MAP.find? (fun p => p.1 == agent_type)).map
              (fun p => p.2) with
          | none =>
              pure (false, "No validation model for agent type: " ++ agent_type)
          | some model => do
              let extracted ← _extract_validation_data kvs agent_type
              match extracted.2 with
              | some m => pure (false, m)
              | none =>
                  match model extracted.1 with
                  | [] => pure (true, "VALID (" ++ agent_type ++ ")")
                  | errs =>
                      pure (false, "INVALID (" ++ agent_type ++ "):\n" ++
                        String.intercalate "\n"
                          (errs.map format_validation_error))
  | v => some (false, "Expected YAML dict, got " ++ pyTypeName v)

/-- `validate_agent_output` of the context-engineering hook, with the
YAML parser abstracted as an argument (`Except` carries the parse-error
text of `yaml.YAMLError`). -/
def validate_agent_output (parse : String → Except String PyVal)
    (output : String) : Option (Bool × String) :=
  match extract_yaml_from_output output with
  | none => some (false, "No YAML content found in output")
  | some yc =>
      if yc == "" then some (false, "No YAML content found in output")
      else
        match parse yc with
        | .error e => some (false, "Invalid YAML: " ++ e)
        | .ok data => validate_agent_output_parsed data

/-- The decision record `main` prints: `decision: continue` on success,
else `decision: block` with every message line two-space indented under
a literal-block `reason: |`. -/
def hook_decision (res : Bool × String) : String :=
  if res.1 then "decision: continue"
  else
    "decision: block\nreason: |\n" ++
      String.intercalate "\n" ((splitLinesStr res.2).map (fun l => "  " ++ l))

/-! ## Red-agent hook (`src/red-agent/hooks/validate-agent-output.py`)

The hook defines its own slimmer inline Pydantic models; they are
embedded with a `Hook_` prefix to keep them apart from the full models
above. -/

/-- Inline `AttackerFinding.validate_id_format` (hook wording). -/
def hookIdChk : PyVal → List VErr
  | .str s =>
      if findingIdMatch s then []
      else [valueErr ("ID must match pattern XX-NNN or XXX-NNN, got: " ++ s)]
  | _ => [⟨[], "string_type", "Input should be a valid string"⟩]

/-- The hook&apos;s `confidence: str | int | float` union (no bounds
validator in the hook model). -/
def hookConfidenceChk : PyVal → List VErr := fun v =>
  match v with
  | .str _ | .int _ | .float _ _ => []
  | _ =>
      [⟨[.fld "str"], "string_type", "Input should be a valid string"⟩,
       ⟨[.fld "int"], "int_type", "Input should be a valid integer"⟩,
       ⟨[.fld "float"], "float_type", "Input should be a valid number"⟩]

/-- Inline `AttackerFinding` (hook version: only five fields, evidence
defaulted, no confidence bounds). -/
def Hook_AttackerFinding : PyVal → List VErr
  | .dict kvs =>
      reqField kvs "id" hookIdChk ++
      reqField kvs "title" strChk ++
      reqField kvs "severity" strChk ++
      reqField kvs "confidence" hookConfidenceChk ++
      optField kvs "evidence" (listChk strChk)
  | _ => modelTypeErr "AttackerFinding"

/-- Inline `AttackerOutput`: `attack_results` is a free-form dict — the
hook does not validate individual findings. -/
def Hook_AttackerOutput : PyVal → List VErr
  | .dict kvs => reqField kvs "attack_results" dictAnyChk
  | _ => modelTypeErr "AttackerOutput"

/-- Inline `GroundingAssessment`. -/
def Hook_GroundingAssessment : PyVal → List VErr
  | .dict kvs =>
      reqField kvs "finding_id" strChk ++
      reqField kvs "status" strChk ++
      reqField kvs "evidence_strength" (floatChk (some 0) (some 1))
  | _ => modelTypeErr "GroundingAssessment"

/-- Inline `GroundingOutput`. -/
def Hook_GroundingOutput : PyVal → List VErr
  | .dict kvs =>
      reqField kvs "grounding_results" dictAnyChk ++
      reqField kvs "agent" strChk
  | _ => modelTypeErr "GroundingOutput"

/-- Inline `ContextAnalysisOutput`. -/
def Hook_ContextAnalysisOutput : PyVal → List VErr
  | .dict kvs => reqField kvs "context_analysis" dictAnyChk
  | _ => modelTypeErr "ContextAnalysisOutput"

/-- Inline `AttackStrategyOutput`. -/
def Hook_AttackStrategyOutput : PyVal → List VErr
  | .dict kvs => reqField kvs "attack_strategy" dictAnyChk
  | _ => modelTypeErr "AttackStrategyOutput"

/-- Inline `RedTeamReport`. -/
def Hook_RedTeamReport : PyVal → List VErr
  | .dict kvs =>
      reqField kvs "executive_summary" (strMinChk 50) ++
      reqField kvs "risk_level" strChk ++
      optField kvs "findings" (listChk dictAnyChk)
  | _ => modelTypeErr "RedTeamReport"

/-- `FixOption.validate_complexity` (also used by
`FindingDetailOption`): case-insensitive membership in LOW/MEDIUM/HIGH. -/
def complexityChk : PyVal → List VErr
  | .str s =>
      if s.toUpper ∈ ["LOW", "MEDIUM", "HIGH"] then []
      else [valueErr ("Complexity must be LOW, MEDIUM, or HIGH, got: " ++ s)]
  | _ => [⟨[], "string_type", "Input should be a valid string"⟩]

/-- Inline `FixOption`. -/
def Hook_FixOption : PyVal → List VErr
  | .dict kvs =>
      reqField kvs "label" strChk ++
      reqField kvs "description" strChk ++
      optField kvs "pros" (listChk strChk) ++
      optField kvs "cons" (listChk strChk) ++
      reqField kvs "complexity" complexityChk ++
      optField kvs "affected_components" (listChk strChk)
  | _ => modelTypeErr "FixOption"

/-- Inline `FixPlannerOutput` (1–3 fix options). -/
def Hook_FixPlannerOutput : PyVal → List VErr
  | .dict kvs =>
      reqField kvs "finding_id" strChk ++
      reqField kvs "finding_title" strChk ++
      reqField kvs "options" (listLenChk (some 1) (some 3) Hook_FixOption)
  | _ => modelTypeErr "FixPlannerOutput"

/-- Inline `FindingWithFixes`. -/
def Hook_FindingWithFixes : PyVal → List VErr
  | .dict kvs =>
      reqField kvs "finding_id" strChk ++
      reqField kvs "title" strChk ++
      reqField kvs "severity" strChk ++
      reqField kvs "options" (listLenChk (some 1) (some 3) Hook_FixOption)
  | _ => modelTypeErr "FindingWithFixes"

/-- Inline `FixCoordinatorOutput` (legacy format). -/
def Hook_FixCoordinatorOutput : PyVal → List VErr
  | .dict kvs =>
      optField kvs "findings_with_fixes" (listChk Hook_FindingWithFixes)
  | _ => modelTypeErr "FixCoordinatorOutput"

/-- `QUESTION_BATCH_SEVERITY_LEVELS` of the hook. -/
def QUESTION_BATCH_SEVERITY_LEVELS : List String :=
  ["CRITICAL", "HIGH", "MEDIUM", "CRITICAL_HIGH"]

/-- Inline `AskUserQuestionOption`. -/
def Hook_AskUserQuestionOption : PyVal → List VErr
  | .dict kvs =>
      reqField kvs "label" strChk ++
      reqField kvs "description" strChk
  | _ => modelTypeErr "AskUserQuestionOption"

/-- Inline `AskUserQuestion` (2–4 options, short header). -/
def Hook_AskUserQuestion : PyVal → List VErr
  | .dict kvs =>
      reqField kvs "question" (strMinChk 10) ++
      reqField kvs "header" (strMaxChk 12) ++
      reqField kvs "multiSelect" boolChk ++
      reqField kvs "options" (listLenChk (some 2) (some 4) Hook_AskUserQuestionOption)
  | _ => modelTypeErr "AskUserQuestion"

/-- `QuestionBatch.validate_severity_level`. -/
def severityLevelChk : PyVal → List VErr
  | .str s =>
      if s ∈ QUESTION_BATCH_SEVERITY_LEVELS then []
      else [valueErr ("Severity \x27" ++ s ++ "\x27 must be one of " ++
        pySetRepr QUESTION_BATCH_SEVERITY_LEVELS)]
  | _ => [⟨[], "string_type", "Input should be a valid string"⟩]

/-- Inline `QuestionBatch` (1–4 questions per batch). -/
def Hook_QuestionBatch : PyVal → List VErr
  | .dict kvs =>
      reqField kvs "batch_number" (intChk (some 1) none) ++
      reqField kvs "severity_level" severityLevelChk ++
      reqField kvs "questions" (listLenChk (some 1) (some 4) Hook_AskUserQuestion)
  | _ => modelTypeErr "QuestionBatch"

/-- Inline `FindingDetailOption`. -/
def Hook_FindingDetailOption : PyVal → List VErr
  | .dict kvs =>
      reqField kvs "label" strChk ++
      reqField kvs "description" strChk ++
      optField kvs "pros" (listChk strChk) ++
      optField kvs "cons" (listChk strChk) ++
      reqField kvs "complexity" complexityChk ++
      optField kvs "affected_components" (listChk strChk)
  | _ => modelTypeErr "FindingDetailOption"

/-- Inline `FindingDetail`. -/
def Hook_FindingDetail : PyVal → List VErr
  | .dict kvs =>
      reqField kvs "finding_id" strChk ++
      reqField kvs "title" strChk ++
      reqField kvs "severity" strChk ++
      reqField kvs "full_options" (listLenChk (some 1) (some 3) Hook_FindingDetailOption)
  | _ => modelTypeErr "FindingDetail"

/-- Inline `FixCoordinatorAskUserOutput` (at least one question batch). -/
def Hook_FixCoordinatorAskUserOutput : PyVal → List VErr
  | .dict kvs =>
      reqField kvs "question_batches" (listLenChk (some 1) none Hook_QuestionBatch) ++
      optField kvs "finding_details" (listChk Hook_FindingDetail)
  | _ => modelTypeErr "FixCoordinatorAskUserOutput"

/-- Inline `FixReaderOutput`. -/
def Hook_FixReaderOutput : PyVal → List VErr
  | .dict kvs =>
      reqField kvs "finding_id" strChk ++
      reqField kvs "parsed_intent" strChk ++
      optField kvs "context_hints" (listChk strChk)
  | _ => modelTypeErr "FixReaderOutput"

/-- Inline `FixPlanV2Output`. -/
def Hook_FixPlanV2Output : PyVal → List VErr
  | .dict kvs =>
      reqField kvs "finding_id" strChk ++
      reqField kvs "fix_plan" dictAnyChk
  | _ => modelTypeErr "FixPlanV2Output"

/-- Inline `FixRedTeamerOutput`. -/
def Hook_FixRedTeamerOutput : PyVal → List VErr
  | .dict kvs =>
      reqField kvs "finding_id" strChk ++
      reqField kvs "validation" dictAnyChk ++
      reqField kvs "approved" boolChk ++
      optField kvs "adjusted_plan" (nullable dictAnyChk)
  | _ => modelTypeErr "FixRedTeamerOutput"

/-- Inline `FixApplicatorOutput`. -/
def Hook_FixApplicatorOutput : PyVal → List VErr
  | .dict kvs =>
      reqField kvs "finding_id" strChk ++
      reqField kvs "applied_changes" dictAnyChk ++
      reqField kvs "success" boolChk ++
      optField kvs "error" (nullable strChk)
  | _ => modelTypeErr "FixApplicatorOutput"

/-- Inline `FixCommitterOutput` (`commit_result` is required but
nullable). -/
def Hook_FixCommitterOutput : PyVal → List VErr
  | .dict kvs =>
      reqField kvs "finding_id" strChk ++
      reqField kvs "commit_result" (nullable dictAnyChk) ++
      reqField kvs "success" boolChk ++
      optField kvs "error" (nullable strChk)
  | _ => modelTypeErr "FixCommitterOutput"

/-- Inline `FixValidatorOutput`. -/
def Hook_FixValidatorOutput : PyVal → List VErr
  | .dict kvs =>
      reqField kvs "finding_id" strChk ++
      reqField kvs "commit_hash" strChk ++
      reqField kvs "validation_result" dictAnyChk
  | _ => modelTypeErr "FixValidatorOutput"

/-- Inline `FixPhaseCoordinatorOutput` (`retry_count` in 0–2). -/
def Hook_FixPhaseCoordinatorOutput : PyVal → List VErr
  | .dict kvs =>
      reqField kvs "finding_id" strChk ++
      reqField kvs "status" strChk ++
      optField kvs "commit_hash" (nullable strChk) ++
      optField kvs "files_changed" (listChk strChk) ++
      optField kvs "validation" (nullable strChk) ++
      reqField kvs "retry_count" (intChk (some 0) (some 2)) ++
      optField kvs "error" (nullable strChk) ++
      optField kvs "revert_command" (nullable strChk)
  | _ => modelTypeErr "FixPhaseCoordinatorOutput"

/-- Inline `FixOrchestratorOutput`. -/
def Hook_FixOrchestratorOutput : PyVal → List VErr
  | .dict kvs =>
      optField kvs "execution_summary" (nullable dictAnyChk) ++
      optField kvs "question_batches" (nullable (listChk Hook_QuestionBatch))
  | _ => modelTypeErr "FixOrchestratorOutput"

/-- The hook&apos;s `AGENT_TYPE_MAP`: agent name → output type. -/
def hook_AGENT_TYPE_MAP : List (String × String) :=
  [("reasoning-attacker", "attacker"),
   ("context-attacker", "attacker"),
   ("hallucination-prober", "attacker"),
   ("scope-analyzer", "attacker"),
   ("attack-strategist", "strategy"),
   ("context-analyzer", "context"),
   ("evidence-checker", "grounding"),
   ("proportion-checker", "grounding"),
   ("alternative-explorer", "grounding"),
   ("calibrator", "grounding"),
   ("insight-synthesizer", "report"),
   ("fix-planner", "fix_planner"),
   ("fix-coordinator", "fix_coordinator"),
   ("fix-orchestrator", "fix_orchestrator"),
   ("fix-phase-coordinator", "fix_phase_coordinator"),
   ("fix-reader", "fix_reader"),
   ("fix-planner-v2", "fix_planner_v2"),
   ("fix-red-teamer", "fix_red_teamer"),
   ("fix-applicator", "fix_applicator"),
   ("fix-committer", "fix_committer"),
   ("fix-validator", "fix_validator")]

/-- The hook&apos;s `MODEL_MAP`: output type → inline model. -/
def hook_MODEL_MAP : List (String × (PyVal → List VErr)) :=
  [("attacker", Hook_AttackerOutput),
   ("strategy", Hook_AttackStrategyOutput),
   ("context", Hook_ContextAnalysisOutput),
   ("grounding", Hook_GroundingOutput),
   ("report", Hook_RedTeamReport),
   ("fix_planner", Hook_FixPlannerOutput),
   ("fix_coordinator", Hook_FixCoordinatorAskUserOutput),
   ("fix_orchestrator", Hook_FixOrchestratorOutput),
   ("fix_phase_coordinator", Hook_FixPhaseCoordinatorOutput),
   ("fix_reader", Hook_FixReaderOutput),
   ("fix_planner_v2", Hook_FixPlanV2Output),
   ("fix_red_teamer", Hook_FixRedTeamerOutput),
   ("fix_applicator", Hook_FixApplicatorOutput),
   ("fix_committer", Hook_FixCommitterOutput),
   ("fix_validator", Hook_FixValidatorOutput)]

/-- Python `repr` of a Pydantic `loc` tuple (the hook interpolates the
raw tuple into its error strings). -/
def pyTupleRepr (l : List Loc) : String :=
  let items := l.map (fun x =>
    match x with
    | .fld s => "\x27" ++ s ++ "\x27"
    | .idx n => toString n)
  match items with
  | [x] => "(" ++ x ++ ",)"
  | xs => "(" ++ String.intercalate ", " xs ++ ")"

/-- `validate_output` of the red-agent hook: an output type missing from
`MODEL_MAP` returns `(True, [])` — validation is silently skipped. -/
def hook_validate_output (data : PyVal) (output_type : String) :
    Bool × List String :=
  match (hook_MODEL_MAP.find? (fun p => p.1 == output_type)).map (fun p => p.2) with
  | none => (true, [])
  | some model =>
      match model data with
      | [] => (true, [])
      | errs => (false, errs.map (fun e => pyTupleRepr e.loc ++ ": " ++ e.msg))

/-- The `reason` string the hook&apos;s `main` emits on validation
failure: at most the first five errors, each on a dashed line, no hint
lines. -/
def hook_block_reason (agent_name : String) (errors : List String) : String :=
  "Validation failed for " ++ agent_name ++ " output:\n- " ++
    String.intercalate "\n- " (errors.take 5) ++
    "\nPlease fix these fields and regenerate the output."

/-- Case-insensitive match of `` ```ya?ml\s*(.*?)``` `` at the head of
`l` (`re.IGNORECASE | re.DOTALL`): the greedy `\s*` takes the whole
whitespace run (the closing fence contains no whitespace, so no
backtracking is observable), then the lazy group stops at the earliest
closing fence. -/
def matchYamlFenceCIAt (l : List Char) : Option (List Char) :=
  let lt := l.map Char.toLower
  let afterOpen :=
    if ("```yaml".data).isPrefixOf lt then some (l.drop 7)
    else if ("```yml".data).isPrefixOf lt then some (l.drop 6)
    else none
  match afterOpen with
  | none => none
  | some rest =>
      let rem := rest.drop (rest.takeWhile isPySpace).length
      (splitAtSub? ("```".data) rem).map (fun p => p.1)

/-- `re.search` scan for the case-insensitive fence pattern. -/
def searchYamlFenceCI : List Char → Option (List Char)
  | [] => none
  | c :: t =>
      match matchYamlFenceCIAt (c :: t) with
      | some g => some g
      | none => searchYamlFenceCI t

/-- `extract_yaml_from_response` of the red-agent hook, with
`yaml.safe_load` abstracted as `parse` (`none` = `yaml.YAMLError`): try
the fenced block first; on no block or a block that fails to parse, try
parsing the entire response.  There is no colon/length heuristic here. -/
def extract_yaml_from_response (parse : String → Option PyVal)
    (response : String) : Option PyVal :=
  match searchYamlFenceCI response.data with
  | some g =>
      match parse (String.mk g) with
      | some v => some v
      | none => parse response
  | none => parse response

/-! ## Improvement-output script
(`src/context-engineering/scripts/validate_improvement_output.py`) -/

/-- `OUTPUT_MODELS`: output type → model, in insertion order. -/
def OUTPUT_MODELS : List (String × (PyVal → List VErr)) :=
  [("plugin_analysis", PluginAnalysis),
   ("context_flow_map", ContextFlowMap),
   ("context_improvements", ContextImprovement),
   ("orchestration_improvements", OrchestrationImprovement),
   ("handoff_improvements", HandoffImprovement),
   ("pattern_check_results", PatternCompliance),
   ("token_estimate_results", TokenEstimate),
   ("consistency_check_results", ConsistencyCheck),
   ("risk_assessment_results", RiskAssessment),
   ("improvement_report", ImprovementReport)]

/-- `detect_output_type`: first registered key present in the document. -/
def detect_output_type (kvs : List (String × PyVal)) : Option String :=
  (OUTPUT_MODELS.find? (fun p => hasKey kvs p.1)).map (fun p => p.1)

/-- `validate_single`: validate one object, errors rendered
`  <dotted.loc>: <msg>` (`none` = the `Model(**data)` call raising a
non-`ValidationError`, i.e. non-dict input). -/
def validate_single (model : PyVal → List VErr) (data : PyVal) :
    Option (Bool × List String) :=
  match data with
  | .dict _ =>
      let errors := (model data).map
        (fun e => "  " ++ locDotted e.loc ++ ": " ++ e.msg)
      some (errors.isEmpty, errors)
  | _ => none

/-- `validate_list`: validate every element; each invalid element
contributes a `<key>[<i>]:` header line plus its re-indented errors —
errors of later elements are never masked by earlier ones. -/
def validate_list (model : PyVal → List VErr) (items : List PyVal)
    (key : String) : Option (Bool × List String) := do
  let per ← ((List.range items.length).zip items).mapM (fun p => do
    let r ← validate_single model p.2
    pure (if r.1 then []
      else ("  " ++ key ++ "[" ++ toString p.1 ++ "]:") ::
        r.2.map (fun e => "    " ++ e)))
  let all := per.flatten
  pure (all.isEmpty, all)

/-- `validate_output` of `validate_improvement_output.py` (named with an
`imp_` prefix; the CLI validator above already carries the plain name),
starting after YAML parsing: detect or accept an explicit output type,
unwrap, and validate a single object or every element of a list payload. -/
def imp_validate_output (data : PyVal) (output_type : Option String) :
    Option (Bool × List String) :=
  match data with
  | .dict kvs =>
      let detected :=
        match output_type with
        | some t => some t
        | none => detect_output_type kvs
      match detected with
      | none =>
          some (false, ["Unknown output type. Expected one of: " ++
            strListRepr (OUTPUT_MODELS.map (fun p => p.1))])
      | some dt =>
          match (OUTPUT_MODELS.find? (fun p => p.1 == dt)).map (fun p => p.2) with
          | none => some (false, ["No model for output type: " ++ dt])
          | some model =>
              let output_data := (lookupKey kvs dt).getD (.dict kvs)
              if dt.endsWith "_improvements" then do
                let itemsPy ← pyGetOpt output_data "improvements" (.list [])
                if !pyTruthy itemsPy then
                  pure (false, ["No improvements found in output"])
                else do
                  let items ← pyIter itemsPy
                  validate_list model items "improvements"
              else if dt.endsWith "_results" then do
                let itemsPy ← pyGetOpt output_data "assessments" (.list [])
                if !pyTruthy itemsPy then
                  pure (false, ["No assessments found in output"])
                else do
                  let items ← pyIter itemsPy
                  validate_list model items "assessments"
              else validate_single model output_data
  | _ => some (false, ["Output must be a YAML mapping"])

/-! ## Spec-side predicates and concrete documents used by the claims -/

/-- The identifier language of `^[A-Z]{2,3}-\d{3}$` spelled out as the
spec words it: two or three uppercase letters, a hyphen, exactly three
digits (with Python&apos;s `$` also admitting one trailing newline). -/
def findingIdSpec (s : String) : Prop :=
  ∃ letters digits tail, s.data = letters ++ ['-'] ++ digits ++ tail ∧
    (letters.length = 2 ∨ letters.length = 3) ∧
    (∀ c ∈ letters, isUpperAZ c = true) ∧
    digits.length = 3 ∧ (∀ c ∈ digits, isDigit09 c = true) ∧
    (tail = [] ∨ tail = ['\n'])

/-- The hint table of `format_validation_error` as a predicate: the
error kinds that receive a `Hint:` line. -/
def hintTableMatches (e : VErr) : Bool :=
  strContainsSub "missing" e.etype ||
  strContainsSub "enum" e.etype || strContainsSub "literal" e.etype ||
  strContainsSub "type_error.float" e.etype ||
  strContainsSub "greater_than" e.etype ||
  strContainsSub "string_too_short" e.etype

/-- Count the bulleted error lines (`- ` items, at any indentation) of a
rendered message or decision record. -/
def bulletCount (s : String) : Nat :=
  ((splitOnChar '\n' s.data).filter
    (fun l => ("- ".data).isPrefixOf (l.dropWhile isPySpace))).length

/-- Count the `Hint:` lines of a rendered message or decision record. -/
def hintCount (s : String) : Nat :=
  ((splitOnChar '\n' s.data).filter
    (fun l => ("Hint:".data).isPrefixOf (l.dropWhile isPySpace))).length

/-- A fully valid `AttackerFinding` document, parameterised by its
confidence value. -/
def baseFindingConf (c : PyVal) : List (String × PyVal) :=
  [("id", .str "RF-001"),
   ("severity", .str "HIGH"),
   ("title", .str "Sample finding title"),
   ("confidence", c),
   ("category", .str "reasoning-flaws"),
   ("target", .dict []),
   ("evidence", .dict [("type", .str "quote")]),
   ("attack_applied", .dict [("style", .str "probing"),
     ("probe", .str "what breaks here")]),
   ("impact", .dict []),
   ("recommendation", .str "Tighten the reasoning chain")]

/-- A fully valid `AttackerFinding` document. -/
def baseFinding : List (String × PyVal) := baseFindingConf (.float 85 2)

/-- Remove the entries whose key is listed in `S`. -/
def dropKeys (S : List String) (kvs : List (String × PyVal)) :
    List (String × PyVal) :=
  kvs.filter (fun p => !S.contains p.1)

/-- The end-to-end example input of the spec: one finding with a bad id,
an out-of-bounds confidence, and most required fields missing. -/
def c9doc : PyVal :=
  .dict [("attack_results", .dict [("findings", .list
    [.dict [("id", .str "bad"), ("severity", .str "HIGH"),
      ("confidence", .float 2 0)]])])]

/-- A structurally valid attacker output with zero findings: no hard
errors, exactly one advisory warning. -/
def zeroFindingsAttackerDoc : PyVal :=
  .dict [("attack_results", .dict
    [("attack_type", .str "reasoning-attacker"),
     ("findings", .list []),
     ("summary", .dict [])])]

/-- A context-optimizer improvement element that validates cleanly. -/
def validImprovementElem : PyVal :=
  .dict [("id", .str "CTX-001"),
   ("file", .str "agents/analyzer.md"),
   ("improvement_type", .str "TIER_SPEC"),
   ("description", .str "Add a context tier specification")]

/-- An improvements document whose first element is valid and whose
second element is not even a mapping. -/
def c10doc : PyVal :=
  .dict [("improvements", .list [validImprovementElem, .str "garbage"])]

/-- An improvements document whose first element carries ten violations:
four missing required fields and six forbidden extra keys. -/
def c5doc : PyVal :=
  .dict [("improvements", .list [.dict
    [("a1", .int 1), ("a2", .int 2), ("a3", .int 3),
     ("a4", .int 4), ("a5", .int 5), ("a6", .int 6)]])]

/-- The decision record the context-engineering hook prints for
`c5doc`. -/
def c5record : String :=
  hook_decision ((validate_agent_output_parsed c5doc).getD (true, ""))

/-! ## Theorems -/

/-- Dropping the keys in `S` makes exactly those keys unresolvable and
leaves every other lookup unchanged. -/
theorem lookupKey_dropKeys (S : List String) (kvs : List (String × PyVal))
    (f : String) :
    lookupKey (dropKeys S kvs) f =
      if S.contains f then none else lookupKey kvs f := by
  induction kvs with
  | nil => by_cases h : S.contains f <;> simp [dropKeys, lookupKey, h]
  | cons p rest ih =>
      by_cases hp : S.contains p.1 <;> by_cases hf : p.1 = f <;>
        simp only [dropKeys, List.filter_cons, hp, hf, Bool.not_true,
          Bool.not_false, if_true, if_false] at ih ⊢ <;>
        simp_all [lookupKey, List.find?_cons, hf]

/-- A required field of a key-dropped valid document: a `missing` error
exactly when the key was dropped. -/
theorem reqField_dropKeys_base (S : List String) (f : String)
    (chk : PyVal → List VErr) (v : PyVal)
    (hv : lookupKey baseFinding f = some v) (hchk : chk v = []) :
    reqField (dropKeys S baseFinding) f chk =
      if S.contains f then [missingErr f] else [] := by
  unfold reqField
  rw [lookupKey_dropKeys]
  by_cases h : f ∈ S
  · simp [h]
  · simp [h, hv, atLoc, hchk]

/-- Gathering `missing` errors over a key list, restricted to a sublist
`S` of a duplicate-free key list, yields exactly `S`'s errors in order. -/
theorem flatten_if_missing_sublist (keys S : List String)
    (h : S.Sublist keys) (hd : keys.Nodup) :
    (keys.map (fun f => if S.contains f then [missingErr f] else [])).flatten
      = S.map missingErr := by
  induction h with
  | slnil => simp
  | @cons l₁ l₂ a h ih =>
      have hnd := List.nodup_cons.mp hd
      have haS : ¬(l₁.contains a = true) := by
        intro hc
        have hm : a ∈ l₁ := by simpa using hc
        exact hnd.1 (h.subset hm)
      rw [List.map_cons, List.flatten_cons, if_neg haS, List.nil_append]
      exact ih hnd.2
  | @cons₂ l₁ l₂ a h ih =>
      have hnd := List.nodup_cons.mp hd
      have hmap : l₂.map (fun f => if (a :: l₁).contains f then
            [missingErr f] else []) =
          l₂.map (fun f => if l₁.contains f then [missingErr f] else []) := by
        apply List.map_congr_left
        intro f hf
        have hfa : f ≠ a := fun e => hnd.1 (e ▸ hf)
        simp [List.contains_cons, hfa]
      rw [List.map_cons, List.flatten_cons, hmap, ih hnd.2]
      have hc : (a :: l₁).contains a = true := by simp [List.contains_cons]
      rw [if_pos hc]
      simp

/-- Claim C1: for a document with k independent, non-overlapping schema
violations, one validation call returns exactly k errors — dropping any
sublist S of the required fields of a fully valid `AttackerFinding`
yields exactly the corresponding `missing` errors, one per dropped
field, in order (no masking); and the CLI&apos;s
`_pydantic_errors_to_result` keeps one reported entry per error. -/
theorem C1_validator_completeness :
    (∀ S : List String, S.Sublist attackerFindingRequired →
      AttackerFinding (.dict (dropKeys S baseFinding)) = S.map missingErr) ∧
    (∀ errs : List VErr,
      (_pydantic_errors_to_result errs).errors.length = errs.length) := by
  constructor
  · intro S hS
    have h1 := reqField_dropKeys_base S "id" validate_id_format
      (.str "RF-001") (by rfl) (by decide)
    have h2 := reqField_dropKeys_base S "severity" validate_severity
      (.str "HIGH") (by rfl) (by decide)
    have h3 := reqField_dropKeys_base S "title" strChk
      (.str "Sample finding title") (by rfl) (by decide)
    have h4 := reqField_dropKeys_base S "confidence" confidenceFieldChk
      (.float 85 2) (by rfl) (by decide)
    have h5 := reqField_dropKeys_base S "category" strChk
      (.str "reasoning-flaws") (by rfl) (by decide)
    have h6 := reqField_dropKeys_base S "target" FindingTarget
      (.dict []) (by rfl) (by decide)
    have h7 := reqField_dropKeys_base S "evidence" FindingEvidence
      (.dict [("type", .str "quote")]) (by rfl) (by decide)
    have h8 := reqField_dropKeys_base S "attack_applied" AttackApplied
      (.dict [("style", .str "probing"), ("probe", .str "what breaks here")])
      (by rfl) (by decide)
    have h9 := reqField_dropKeys_base S "impact" FindingImpact
      (.dict []) (by rfl) (by decide)
    have h10 := reqField_dropKeys_base S "recommendation" (strMinChk 10)
      (.str "Tighten the reasoning chain") (by rfl) (by decide)
    have key := flatten_if_missing_sublist attackerFindingRequired S hS
      (by decide)
    show reqField (dropKeys S baseFinding) "id" validate_id_format ++
      reqField (dropKeys S baseFinding) "severity" validate_severity ++
      reqField (dropKeys S baseFinding) "title" strChk ++
      reqField (dropKeys S baseFinding) "confidence" confidenceFieldChk ++
      reqField (dropKeys S baseFinding) "category" strChk ++
      reqField (dropKeys S baseFinding) "target" FindingTarget ++
      reqField (dropKeys S baseFinding) "evidence" FindingEvidence ++
      reqField (dropKeys S baseFinding) "attack_applied" AttackApplied ++
      reqField (dropKeys S baseFinding) "impact" FindingImpact ++
      reqField (dropKeys S baseFinding) "recommendation" (strMinChk 10) =
        S.map missingErr
    rw [h1, h2, h3, h4, h5, h6, h7, h8, h9, h10, ← key]
    simp [attackerFindingRequired, List.append_assoc]
  · intro errs
    simp [_pydantic_errors_to_result]

/-- Witness for C1: removing the three unrelated required fields
`category`, `target`, `evidence` from a valid finding yields exactly
three `missing` errors. -/
theorem C1_witness :
    (["category", "target", "evidence"]).Sublist attackerFindingRequired ∧
    AttackerFinding (.dict (dropKeys ["category", "target", "evidence"]
        baseFinding)) =
      [missingErr "category", missingErr "target", missingErr "evidence"] := by
  have hs : (["category", "target", "evidence"]).Sublist
      attackerFindingRequired :=
    List.mem_sublists.mp (by decide)
  exact ⟨hs, C1_validator_completeness.1 _ hs⟩

/-- Characterisation of the `-\d{3}$` tail matcher. -/
theorem hyphenDigits3_eq_true (cs : List Char) :
    hyphenDigits3 cs = true ↔
      ∃ d1 d2 d3 tail, cs = '-' :: d1 :: d2 :: d3 :: tail ∧
        isDigit09 d1 = true ∧ isDigit09 d2 = true ∧ isDigit09 d3 = true ∧
        (tail = [] ∨ tail = ['\n']) := by
  constructor
  · intro h
    rcases cs with _ | ⟨c, _ | ⟨d1, _ | ⟨d2, _ | ⟨d3, tail⟩⟩⟩⟩
    · exact absurd h Bool.false_ne_true
    · exact absurd h Bool.false_ne_true
    · exact absurd h Bool.false_ne_true
    · exact absurd h Bool.false_ne_true
    · rw [show hyphenDigits3 (c :: d1 :: d2 :: d3 :: tail) =
          (decide (c = '-') && isDigit09 d1 && isDigit09 d2 &&
            isDigit09 d3 && dollarEnd tail) from rfl] at h
      simp only [Bool.and_eq_true, decide_eq_true_eq] at h
      obtain ⟨⟨⟨⟨hc, h1⟩, h2⟩, h3⟩, hde⟩ := h
      subst hc
      refine ⟨d1, d2, d3, tail, rfl, h1, h2, h3, ?_⟩
      simpa [dollarEnd] using hde
  · rintro ⟨d1, d2, d3, tail, rfl, h1, h2, h3, ht⟩
    have hde : dollarEnd tail = true := by
      rcases ht with rfl | rfl <;> decide
    rw [show hyphenDigits3 ('-' :: d1 :: d2 :: d3 :: tail) =
        (decide (('-' : Char) = '-') && isDigit09 d1 && isDigit09 d2 &&
          isDigit09 d3 && dollarEnd tail) from rfl]
    simp [h1, h2, h3, hde]

/-- The embedded `re.match` test for `^[A-Z]{2,3}-\d{3}$` accepts exactly
the strings of the spelled-out identifier language. -/
theorem findingIdMatch_iff (s : String) :
    findingIdMatch s = true ↔ findingIdSpec s := by
  constructor
  · intro h
    unfold findingIdMatch at h
    rcases hs : s.data with _ | ⟨a, _ | ⟨b, rest⟩⟩ <;> rw [hs] at h
    · exact absurd h Bool.false_ne_true
    · exact absurd h Bool.false_ne_true
    · simp only [Bool.and_eq_true, Bool.or_eq_true] at h
      obtain ⟨⟨ha, hb⟩, hor⟩ := h
      rcases hor with h1 | h2
      · obtain ⟨d1, d2, d3, tail, rfl, hd1, hd2, hd3, ht⟩ :=
          (hyphenDigits3_eq_true rest).mp h1
        refine ⟨[a, b], [d1, d2, d3], tail, by simp [hs], Or.inl rfl,
          ?_, rfl, ?_, ht⟩
        · intro x hx
          rcases List.mem_pair.mp hx with rfl | rfl <;> assumption
        · intro x hx
          simp only [List.mem_cons, List.not_mem_nil, or_false] at hx
          rcases hx with rfl | rfl | rfl <;> assumption
      · rcases rest with _ | ⟨c, rest2⟩
        · exact absurd h2 Bool.false_ne_true
        · simp only [Bool.and_eq_true] at h2
          obtain ⟨hc, h2'⟩ := h2
          obtain ⟨d1, d2, d3, tail, rfl, hd1, hd2, hd3, ht⟩ :=
            (hyphenDigits3_eq_true rest2).mp h2'
          refine ⟨[a, b, c], [d1, d2, d3], tail, by simp [hs], Or.inr rfl,
            ?_, rfl, ?_, ht⟩
          · intro x hx
            simp only [List.mem_cons, List.not_mem_nil, or_false] at hx
            rcases hx with rfl | rfl | rfl <;> assumption
          · intro x hx
            simp only [List.mem_cons, List.not_mem_nil, or_false] at hx
            rcases hx with rfl | rfl | rfl <;> assumption
  · rintro ⟨letters, digits, tail, hsplit, hlen, hup, hdlen, hdig, htail⟩
    have htl : hyphenDigits3 ('-' :: digits ++ tail) = true := by
      obtain ⟨d1, d2, d3, rfl⟩ := List.length_eq_three.mp hdlen
      exact (hyphenDigits3_eq_true _).mpr
        ⟨d1, d2, d3, tail, by simp, hdig d1 (by simp), hdig d2 (by simp),
          hdig d3 (by simp), htail⟩
    rcases hlen with h2 | h3
    · obtain ⟨a, b, rfl⟩ := List.length_eq_two.mp h2
      have ha := hup a (by simp)
      have hb := hup b (by simp)
      unfold findingIdMatch
      rw [hsplit]
      simp only [List.cons_append, List.nil_append, List.singleton_append]
      simp only [List.cons_append] at htl
      simp [ha, hb, htl]
    · obtain ⟨a, b, c, rfl⟩ := List.length_eq_three.mp h3
      have ha := hup a (by simp)
      have hb := hup b (by simp)
      have hc := hup c (by simp)
      unfold findingIdMatch
      rw [hsplit]
      simp only [List.cons_append, List.nil_append, List.singleton_append]
      simp only [List.cons_append] at htl
      simp [ha, hb, hc, htl]

/-- Claim C2: `validate_finding_id` accepts exactly the strings matching
`^[A-Z]{2,3}-\d{3}$` (two or three uppercase letters, hyphen, three
digits, with Python&apos;s `$` admitting one trailing newline);
`RF-001` and `ABC-123` are accepted, `rf-001`, `RF-01` and `invalid` are
rejected, and every rejection carries the message naming the expected
`XX-NNN or XXX-NNN` format. -/
theorem C2_finding_id_pattern :
    (∀ s, validate_finding_id s = Except.ok s ↔ findingIdSpec s) ∧
    (∀ s, findingIdMatch s = false →
      validate_finding_id s = Except.error
        ("Finding ID \x27" ++ s ++
          "\x27 must match XX-NNN or XXX-NNN format (e.g., RF-001)")) ∧
    validate_finding_id "RF-001" = Except.ok "RF-001" ∧
    validate_finding_id "ABC-123" = Except.ok "ABC-123" ∧
    validate_finding_id "rf-001" = Except.error
      "Finding ID \x27rf-001\x27 must match XX-NNN or XXX-NNN format (e.g., RF-001)" ∧
    validate_finding_id "RF-01" = Except.error
      "Finding ID \x27RF-01\x27 must match XX-NNN or XXX-NNN format (e.g., RF-001)" ∧
    validate_finding_id "invalid" = Except.error
      "Finding ID \x27invalid\x27 must match XX-NNN or XXX-NNN format (e.g., RF-001)" := by
  refine ⟨?_, ?_, ?_, ?_, ?_, ?_, ?_⟩
  · intro s
    unfold validate_finding_id
    by_cases h : findingIdMatch s = true
    · rw [if_pos h]
      exact iff_of_true rfl ((findingIdMatch_iff s).mp h)
    · rw [if_neg h]
      constructor
      · intro he
        exact absurd he (by simp)
      · intro hspec
        exact absurd ((findingIdMatch_iff s).mpr hspec) h
  · intro s h
    unfold validate_finding_id
    rw [if_neg (by simp [h])]
  · rfl
  · rfl
  · rfl
  · rfl
  · rfl

/-- Witness for C2: the rejection branch applied at `rf-001`. -/
theorem C2_witness :
    findingIdMatch "rf-001" = false ∧
    validate_finding_id "rf-001" = Except.error
      "Finding ID \x27rf-001\x27 must match XX-NNN or XXX-NNN format (e.g., RF-001)" :=
  ⟨by decide, C2_finding_id_pattern.2.1 "rf-001" (by decide)⟩

/-- Claim C3: the union-typed confidence field accepts a float exactly
when its value lies in [0.0, 1.0] and a string exactly when it ends in
`%`; in particular 1.5 is rejected with a bounds message, 0.85 and
`85%` are accepted, and the plain string `85` is rejected. -/
theorem C3_confidence_union :
    (∀ (m : Int) (e : Nat), validate_confidence (.float m e) = [] ↔
      (0 ≤ (m : Rat) / (10 : Rat) ^ e ∧ (m : Rat) / (10 : Rat) ^ e ≤ 1)) ∧
    (∀ s, validate_confidence (.str s) = [] ↔ pyEndsWith s "%" = true) ∧
    AttackerFinding (.dict (baseFindingConf (.float 15 1))) =
      [⟨[.fld "confidence"], "value_error",
        "Value error, Confidence 1.5 must be between 0.0 and 1.0"⟩] ∧
    AttackerFinding (.dict (baseFindingConf (.float 85 2))) = [] ∧
    AttackerFinding (.dict (baseFindingConf (.str "85%"))) = [] ∧
    AttackerFinding (.dict (baseFindingConf (.str "85"))) =
      [⟨[.fld "confidence"], "value_error",
        "Value error, String confidence \x2785\x27 should be numeric or end with %"⟩] := by
  refine ⟨?_, ?_, by decide, by decide, by decide, by decide⟩
  · intro m e
    have hp : (0 : Rat) < (10 : Rat) ^ e := by positivity
    have hiff : (0 ≤ m ∧ m ≤ (10 : Int) ^ e) ↔
        (0 ≤ (m : Rat) / (10 : Rat) ^ e ∧ (m : Rat) / (10 : Rat) ^ e ≤ 1) := by
      rw [le_div_iff₀ hp, div_le_one hp, zero_mul]
      constructor
      · rintro ⟨h1, h2⟩
        exact ⟨by exact_mod_cast h1, by exact_mod_cast h2⟩
      · rintro ⟨h1, h2⟩
        exact ⟨by exact_mod_cast h1, by exact_mod_cast h2⟩
    rw [show validate_confidence (.float m e) =
        (if 0 ≤ m ∧ m ≤ (10 : Int) ^ e then [] else
          [valueErr ("Confidence " ++ pyFloatRepr m e ++
            " must be between 0.0 and 1.0")]) from rfl]
    by_cases h : 0 ≤ m ∧ m ≤ (10 : Int) ^ e
    · rw [if_pos h]
      exact iff_of_true rfl (hiff.mp h)
    · rw [if_neg h]
      constructor
      · intro he
        exact absurd he (by simp [valueErr])
      · intro hc
        exact absurd (hiff.mpr hc) h
  · intro s
    rw [show validate_confidence (.str s) =
        (if pyEndsWith s "%" = true then [] else
          [valueErr ("String confidence \x27" ++ s ++
            "\x27 should be numeric or end with %")]) from rfl]
    by_cases h : pyEndsWith s "%" = true
    · rw [if_pos h]
      exact iff_of_true rfl h
    · rw [if_neg h]
      constructor
      · intro he
        exact absurd he (by simp [valueErr])
      · intro hc
        exact absurd hc h

/-- Claim C4: for a mapping whose root key is `improvements`, detection
defers to `detect_improvement_type`, which looks only at element 0 of
the list and applies the priority order transition/current_handoff ⇒
handoff-improver, else current_structure/proposed_structure ⇒
orchestration-improver, else (and for the empty list) context-optimizer. -/
theorem C4_improvement_type_detection :
    (∀ v : PyVal, detect_agent_type_from_yaml [("improvements", v)] =
      (detect_improvement_type [("improvements", v)]).map some) ∧
    (∀ (m : List (String × PyVal)) (rest : List PyVal),
      detect_improvement_type [("improvements", .list (.dict m :: rest))] =
        some (if hasKey m "transition" || hasKey m "current_handoff" then
            "handoff-improver"
          else if hasKey m "current_structure" ||
              hasKey m "proposed_structure" then
            "orchestration-improver"
          else "context-optimizer")) ∧
    detect_improvement_type [("improvements", .list [])] =
      some "context-optimizer" ∧
    (∀ (x : PyVal) (rest rest' : List PyVal),
      detect_improvement_type [("improvements", .list (x :: rest))] =
        detect_improvement_type [("improvements", .list (x :: rest'))]) := by
  refine ⟨fun v => rfl, ?_, rfl, fun x rest rest' => rfl⟩
  intro m rest
  by_cases h1 : hasKey m "transition" <;>
    by_cases h2 : hasKey m "current_handoff" <;>
      by_cases h3 : hasKey m "current_structure" <;>
        by_cases h4 : hasKey m "proposed_structure" <;>
          simp [detect_improvement_type, pyTruthy, pyIndex0, pyContains,
            lookupKey, h1, h2, h3, h4]

/-- Counterexample to claim C5 as stated: in the context-engineering
hook (the reporter that has the hint table) the `block` reason is NOT
capped at 5 bulleted errors — a document whose first improvement element
has ten violations renders a decision record with ten bullets. -/
theorem C5_counterexample :
    (validate_agent_output_parsed c5doc).isSome = true ∧
    pyStartsWith c5record "decision: block" = true ∧
    bulletCount c5record = 10 ∧
    5 < bulletCount c5record ∧
    hintCount c5record = 4 := by
  refine ⟨by decide, by decide, by decide, by decide, by decide⟩

/-- Claim C5 (amended): the decision record is `continue` when valid and
`block` otherwise.  The context-engineering hook renders every error as
a `- <path>: <msg>` bullet with no 5-error cap, adding an indented
`Hint:` line exactly for the error kinds in its static table (no hint
otherwise); the red-agent hook caps its reason at the first 5 errors and
appends no hints. -/
theorem C5_decision_record :
    (∀ m : String, hook_decision (true, m) = "decision: continue") ∧
    (∀ m : String,
      pyStartsWith (hook_decision (false, m)) "decision: block\nreason: |" =
        true) ∧
    (∀ e : VErr, hintTableMatches e = false →
      format_validation_error e = "- " ++ locDotted e.loc ++ ": " ++ e.msg) ∧
    (∀ e : VErr, strContainsSub "missing" e.etype = true →
      format_validation_error e =
        "- " ++ locDotted e.loc ++ ": " ++ e.msg ++
          "\n  Hint: Add \x27" ++ locDotted e.loc ++ "\x27 field to output") ∧
    (∀ errs : List VErr,
      (errs.map format_validation_error).length = errs.length) ∧
    bulletCount (hook_block_reason "insight-synthesizer"
      ["(\x27executive_summary\x27,): Field required",
       "(\x27risk_overview\x27,): Field required",
       "(\x27findings\x27,): Field required",
       "(\x27patterns_detected\x27,): Input should be a valid list",
       "(\x27recommendations\x27,): Input should be a valid dictionary",
       "(\x27limitations\x27,): Input should be a valid dictionary",
       "(\x27methodology\x27,): Input should be a valid dictionary"]) = 5 := by
  refine ⟨fun m => rfl, ?_, ?_, ?_, fun errs => by simp, by decide⟩
  · intro m
    have hsplit : ("decision: block\nreason: |\n" : String) =
        "decision: block\nreason: |" ++ "\n" := rfl
    show pyStartsWith ("decision: block\nreason: |\n" ++ _) _ = true
    rw [hsplit, String.append_assoc]
    simp [pyStartsWith, String.data_append, List.isPrefixOf_iff_prefix]
  · intro e h
    simp only [hintTableMatches, Bool.or_eq_false_iff] at h
    obtain ⟨⟨⟨⟨⟨h1, h2⟩, h3⟩, h4⟩, h5⟩, h6⟩ := h
    simp [format_validation_error, h1, h2, h3, h4, h5, h6]
  · intro e h
    simp [format_validation_error, h]

/-- Witness for the amended C5: an `extra_forbidden` error has no hint
table entry and renders as a bare bullet, while a `missing` error gets
its hint line. -/
theorem C5_decision_record_witness :
    hintTableMatches ⟨[.fld "a1"], "extra_forbidden",
        "Extra inputs are not permitted"⟩ = false ∧
    format_validation_error ⟨[.fld "a1"], "extra_forbidden",
        "Extra inputs are not permitted"⟩ =
      "- a1: Extra inputs are not permitted" ∧
    strContainsSub "missing" "missing" = true ∧
    format_validation_error ⟨[.fld "id"], "missing", "Field required"⟩ =
      "- id: Field required\n  Hint: Add \x27id\x27 field to output" := by
  refine ⟨by decide, ?_, by decide, ?_⟩
  · have h := C5_decision_record.2.2.1
      ⟨[.fld "a1"], "extra_forbidden", "Extra inputs are not permitted"⟩
      (by decide)
    simpa using h
  · have h := C5_decision_record.2.2.2.1
      ⟨[.fld "id"], "missing", "Field required"⟩ (by decide)
    simpa using h

/-- Claim C6: the CLI validation entry point exits 0 exactly when the
document is valid and, under strict mode, additionally has no warnings;
it exits 1 otherwise.  A structurally valid attacker document with zero
findings has no errors and one warning, so it passes lenient (exit 0)
and fails strict (exit 1). -/
theorem C6_exit_codes :
    (∀ (r : ValidationResult) (strict : Bool),
      cliExitCode r strict = 0 ↔
        (r.is_valid = true ∧ (strict = true → r.warnings = []))) ∧
    (∀ (r : ValidationResult) (strict : Bool),
      cliExitCode r strict = 0 ∨ cliExitCode r strict = 1) ∧
    validate_attacker_output zeroFindingsAttackerDoc =
      some ⟨[], ["No findings reported - verify this is intentional"]⟩ ∧
    cliExitCode ⟨[], ["No findings reported - verify this is intentional"]⟩
      false = 0 ∧
    cliExitCode ⟨[], ["No findings reported - verify this is intentional"]⟩
      true = 1 := by
  refine ⟨?_, ?_, by decide, by decide, by decide⟩
  · intro r strict
    rcases r with ⟨errs, warns⟩
    cases errs <;> cases warns <;> cases strict <;>
      simp [cliExitCode, ValidationResult.is_valid]
  · intro r strict
    unfold cliExitCode
    split_ifs <;> simp

/-- Witness for C3: the float acceptance characterisation applied at
0.85. -/
theorem C3_confidence_union_witness :
    (0 ≤ (85 : Rat) / (10 : Rat) ^ (2 : Nat) ∧
      (85 : Rat) / (10 : Rat) ^ (2 : Nat) ≤ 1) :=
  (C3_confidence_union.1 85 2).mp (by decide)

/-- Witness for C6: the exit-code characterisation applied at an
error-free, warning-free result under strict mode. -/
theorem C6_exit_codes_witness :
    cliExitCode ⟨[], []⟩ true = 0 :=
  (C6_exit_codes.1 ⟨[], []⟩ true).mpr ⟨rfl, fun _ => rfl⟩

/-- Counterexample to claim C7 as stated: the context-engineering
extractor&apos;s fenced pattern does not match a ```yml fence (it is
lowercase-`yaml` only), so the whole text — fences included — is
returned through the raw-document fallback instead of the block body;
the red-agent extractor&apos;s case-insensitive pattern does match the
same text. -/
theorem C7_counterexample :
    searchYamlFence ("```yml\na: 1\n```").data = none ∧
    extract_yaml_from_output "```yml\na: 1\n```" =
      some "```yml\na: 1\n```" ∧
    (searchYamlFenceCI ("```yml\na: 1\n```").data).map String.mk =
      some "a: 1\n" := by
  refine ⟨by decide, by decide, by decide⟩

/-- Claim C7 (amended): in the context-engineering hook, extraction
first tries only the lowercase ```yaml fenced pattern; when no fenced
block matches, the entire text is treated as a raw document iff it
contains a colon and is multi-line or under 500 characters, and
otherwise extraction reports no structured content.  The red-agent
hook&apos;s extractor matches ```yaml/```yml case-insensitively but its
fallback parses the whole response without the colon/length heuristic. -/
theorem C7_extraction :
    (∀ (s : String) (g : List Char), searchYamlFence s.data = some g →
      extract_yaml_from_output s = some (String.mk g)) ∧
    (∀ s : String, searchYamlFence s.data = none →
      extract_yaml_from_output s =
        (if s.data.contains ':' && (s.data.contains '\n' || s.length < 500)
          then some s else none)) ∧
    extract_yaml_from_output "```yaml\nfoo: 1\n```" = some "foo: 1" ∧
    extract_yaml_from_output "Just prose without structure" = none ∧
    (∀ (parse : String → Option PyVal) (s : String),
      searchYamlFenceCI s.data = none →
        extract_yaml_from_response parse s = parse s) ∧
    (searchYamlFenceCI ("```YML\nb: 2\n```").data).map String.mk =
      some "b: 2\n" := by
  refine ⟨?_, ?_, by decide, by decide, ?_, by decide⟩
  · intro s g h
    unfold extract_yaml_from_output
    rw [h]
  · intro s h
    unfold extract_yaml_from_output
    rw [h]
  · intro parse s h
    unfold extract_yaml_from_response
    rw [h]

/-- Witness for the amended C7: the fenced path, the raw fallback, and
the red-agent whole-text fallback, each at a concrete input. -/
theorem C7_extraction_witness :
    extract_yaml_from_output "```yaml\nbar: 2\n```" = some "bar: 2" ∧
    extract_yaml_from_output "a: 1" = some "a: 1" ∧
    extract_yaml_from_response (fun _ => some .none_) "no fences here" =
      some .none_ := by
  refine ⟨?_, ?_, ?_⟩
  · exact C7_extraction.1 "```yaml\nbar: 2\n```" ("bar: 2").data (by decide)
  · rw [C7_extraction.2.1 "a: 1" (by decide)]
    decide
  · exact C7_extraction.2.2.2.2.1 (fun _ => some .none_) "no fences here"
      (by decide)

/-- Counterexample to claim C8 as stated: the red-agent hook&apos;s
`validate_output` silently passes (valid, no errors) when the requested
output type is not in its model catalogue, instead of hard-failing. -/
theorem C8_counterexample :
    hook_validate_output (.dict []) "nonexistent" = (true, []) := by
  decide

/-- Claim C8 (amended): the CLI validator and the improvement-output
script hard-fail on an unregistered schema name (an explicit error
result, never a pass), but the red-agent hook&apos;s `validate_output`
returns success with no errors for any type missing from its
`MODEL_MAP` — a silent skip. -/
theorem C8_unregistered_schema :
    (∀ t : String, t ∉ cliValidatorTypes → ∀ data : PyVal,
      validate_output data t = some ⟨["Unknown output type: " ++ t ++
        ". Valid: " ++ strListRepr cliValidatorTypes], []⟩) ∧
    (∀ t : String,
      (ValidationResult.mk ["Unknown output type: " ++ t ++ ". Valid: " ++
        strListRepr cliValidatorTypes] []).is_valid = false) ∧
    (∀ (kvs : List (String × PyVal)) (t : String),
      OUTPUT_MODELS.find? (fun p => p.1 == t) = none →
      imp_validate_output (.dict kvs) (some t) =
        some (false, ["No model for output type: " ++ t])) ∧
    (∀ (data : PyVal) (t : String),
      hook_MODEL_MAP.find? (fun p => p.1 == t) = none →
      hook_validate_output data t = (true, [])) := by
  refine ⟨?_, ?_, ?_, ?_⟩
  · intro t ht data
    unfold validate_output
    rw [if_pos ht]
  · intro t
    simp [ValidationResult.is_valid]
  · intro kvs t h
    simp [imp_validate_output, h]
  · intro data t h
    simp [hook_validate_output, h]

/-- Witness for the amended C8: concrete unregistered names on both the
CLI path and the hook path. -/
theorem C8_unregistered_schema_witness :
    validate_output (.dict []) "bogus" =
      some ⟨["Unknown output type: bogus. Valid: [\x27attacker\x27, \x27grounding\x27, \x27context\x27, \x27report\x27, \x27strategy\x27, \x27diff_analysis\x27, \x27code_attacker\x27, \x27pr_report\x27]"], []⟩ ∧
    hook_validate_output .none_ "unregistered" = (true, []) := by
  constructor
  · exact C8_unregistered_schema.1 "bogus" (by decide) (.dict [])
  · exact C8_unregistered_schema.2.2.2 .none_ "unregistered" (by rfl)

/-- Claim C9: the spec&apos;s end-to-end example — one finding with id
`bad`, severity `HIGH`, confidence 2.0 — validated against the attacker
schema yields at least three errors: the id pattern `value_error`, the
confidence bounds `value_error`, and `missing`/`Field required` for
`category` (with `target`, `evidence`, `attack_applied`,
`recommendation` also missing; eleven errors in total). -/
theorem C9_attacker_example :
    3 ≤ (AttackerOutput c9doc).length ∧
    (⟨[.fld "attack_results", .fld "findings", .idx 0, .fld "id"],
      "value_error",
      "Value error, Finding ID \x27bad\x27 must match XX-NNN or XXX-NNN format (e.g., RF-001)"⟩ : VErr)
      ∈ AttackerOutput c9doc ∧
    (⟨[.fld "attack_results", .fld "findings", .idx 0, .fld "confidence"],
      "value_error",
      "Value error, Confidence 2.0 must be between 0.0 and 1.0"⟩ : VErr)
      ∈ AttackerOutput c9doc ∧
    (⟨[.fld "attack_results", .fld "findings", .idx 0, .fld "category"],
      "missing", "Field required"⟩ : VErr) ∈ AttackerOutput c9doc ∧
    (⟨[.fld "attack_results", .fld "findings", .idx 0, .fld "recommendation"],
      "missing", "Field required"⟩ : VErr) ∈ AttackerOutput c9doc ∧
    (AttackerOutput c9doc).length = 11 := by
  refine ⟨by decide, by decide, by decide, by decide, by decide, by decide⟩

/-- Detection on a singleton `improvements` document with a dict first
element: the routing depends only on which of the four discriminating
keys the first element carries. -/
theorem detect_imp_head (m : List (String × PyVal)) (rest : List PyVal) :
    detect_agent_type_from_yaml [("improvements", .list (.dict m :: rest))] =
      (if hasKey m "transition" then some (some "handoff-improver")
       else if hasKey m "current_handoff" then some (some "handoff-improver")
       else if hasKey m "current_structure" then some (some "orchestration-improver")
       else if hasKey m "proposed_structure" then some (some "orchestration-improver")
       else some (some "context-optimizer")) := by
  have hfind : ROOT_KEY_MAP.find?
      (fun p => hasKey [("improvements", PyVal.list (.dict m :: rest))] p.1) =
      some ("improvements", "context-optimizer") := rfl
  have hlk : lookupKey [("improvements", PyVal.list (.dict m :: rest))]
      "improvements" = some (.list (.dict m :: rest)) := rfl
  by_cases h1 : hasKey m "transition" <;>
    by_cases h2 : hasKey m "current_handoff" <;>
      by_cases h3 : hasKey m "current_structure" <;>
        by_cases h4 : hasKey m "proposed_structure" <;>
          simp [detect_agent_type_from_yaml, hfind, hlk, detect_improvement_type,
            pyTruthy, pyIndex0, pyContains, h1, h2, h3, h4]

/-- Two parsed documents that detect as the same agent type and extract
the same validation payload get the same verdict. -/
theorem vaop_eq_of_detect (kvs kvs' : List (String × PyVal)) (t : String)
    (h : detect_agent_type_from_yaml kvs = some (some t))
    (h' : detect_agent_type_from_yaml kvs' = some (some t))
    (hx : _extract_validation_data kvs t = _extract_validation_data kvs' t) :
    validate_agent_output_parsed (.dict kvs) =
      validate_agent_output_parsed (.dict kvs') := by
  unfold validate_agent_output_parsed
  dsimp only
  rw [h, h']
  simp only [Option.bind_eq_bind, Option.some_bind]
  rw [hx]

/-- Claim C10: in the context-engineering hook, only element 0 of a
non-empty list payload is ever validated — the verdict is invariant
under replacing everything after the first element, for the
`improvements` and `challenge_assessments` pipelines and for the
`assessments` extraction; concretely, a document whose first improvement
is valid is reported `VALID` / `decision: continue` even though its
second element (`"garbage"`, not even a mapping) would fail validation. -/
theorem C10_first_element_only :
    (∀ (m : List (String × PyVal)) (rest rest' : List PyVal),
      validate_agent_output_parsed
          (.dict [("improvements", .list (.dict m :: rest))]) =
        validate_agent_output_parsed
          (.dict [("improvements", .list (.dict m :: rest'))])) ∧
    (∀ (x : PyVal) (rest rest' : List PyVal),
      validate_agent_output_parsed
          (.dict [("challenge_assessments", .list (x :: rest))]) =
        validate_agent_output_parsed
          (.dict [("challenge_assessments", .list (x :: rest'))])) ∧
    (∀ (x : PyVal) (rest : List PyVal),
      _extract_validation_data [("assessments", .list (x :: rest))]
        "pattern-checker" = some (x, none)) ∧
    (∀ (x : PyVal) (rest : List PyVal),
      _extract_validation_data [("improvements", .list (x :: rest))]
        "context-optimizer" = some (x, none)) ∧
    (∀ (x : PyVal) (rest : List PyVal),
      _extract_validation_data [("challenge_assessments", .list (x :: rest))]
        "challenger" = some (x, none)) ∧
    validate_agent_output_parsed c10doc =
      some (true, "VALID (context-optimizer)") ∧
    hook_decision ((validate_agent_output_parsed c10doc).getD (false, "")) =
      "decision: continue" ∧
    (ContextImprovement (.str "garbage")).isEmpty = false := by
  refine ⟨?_, fun x rest rest' => rfl,
    fun x rest => rfl, fun x rest => rfl, fun x rest => rfl,
    by decide, by decide, by decide⟩
  intro m rest rest'
  by_cases h1 : hasKey m "transition"
  · exact vaop_eq_of_detect _ _ "handoff-improver"
      (by rw [detect_imp_head, if_pos h1]) (by rw [detect_imp_head, if_pos h1]) rfl
  · by_cases h2 : hasKey m "current_handoff"
    · exact vaop_eq_of_detect _ _ "handoff-improver"
        (by rw [detect_imp_head, if_neg h1, if_pos h2])
        (by rw [detect_imp_head, if_neg h1, if_pos h2]) rfl
    · by_cases h3 : hasKey m "current_structure"
      · exact vaop_eq_of_detect _ _ "orchestration-improver"
          (by rw [detect_imp_head, if_neg h1, if_neg h2, if_pos h3])
          (by rw [detect_imp_head, if_neg h1, if_neg h2, if_pos h3]) rfl
      · by_cases h4 : hasKey m "proposed_structure"
        · exact vaop_eq_of_detect _ _ "orchestration-improver"
            (by rw [detect_imp_head, if_neg h1, if_neg h2, if_neg h3, if_pos h4])
            (by rw [detect_imp_head, if_neg h1, if_neg h2, if_neg h3, if_pos h4]) rfl
        · exact vaop_eq_of_detect _ _ "context-optimizer"
            (by rw [detect_imp_head, if_neg h1, if_neg h2, if_neg h3, if_neg h4])
            (by rw [detect_imp_head, if_neg h1, if_neg h2, if_neg h3, if_neg h4]) rfl
